import Mathlib

/-!
Shallow embedding of the mesh-batching core of `bevy_mod_sprite3d`
(`src/lib.rs`).

Coordinates are modelled by rationals (`ℚ`) standing for the `f32` values of
the source; all arithmetic performed by the source (add, sub, mul, componentwise
reciprocal, cross product) is exact and is translated literally.  Two
operations whose bit-level float behaviour is irrelevant to the claims are
abstracted as function parameters:

* `nz : Vec3 → Vec3` stands for `glam::Vec3A::normalize`,
* `toLin : Color → Vec4` stands for `Color::to_linear().to_f32_array()`.

`u32` index arithmetic (`mesh_positions.len() as u32`, index additions) is
modelled with explicit `% 2 ^ 32`.  A Rust panic is modelled by returning
`none`; fallible asset lookups return `Option`.  The generic material store
`Assets<M>` together with the image store consulted by
`SizedMaterial::size(&self, images)` is modelled by a lookup function
`MaterialAssets : Nat → Option Material`, where `Material.size` is the result
of the `size` capability for this frame's image store.
-/

namespace Sprite3dModel

/-- Rational 2D vector, modelling `glam`/`bevy_math` `Vec2`. -/
structure Vec2 where
  x : ℚ
  y : ℚ
deriving DecidableEq

/-- Componentwise product, modelling `Vec2 * Vec2`. -/
def Vec2.mul (a b : Vec2) : Vec2 := ⟨a.x * b.x, a.y * b.y⟩

/-- Vector-times-scalar product, modelling `Vec2 * f32`. -/
def Vec2.scale (a : Vec2) (s : ℚ) : Vec2 := ⟨a.x * s, a.y * s⟩

/-- Componentwise negation, modelling `-Vec2`. -/
def Vec2.neg (a : Vec2) : Vec2 := ⟨-a.x, -a.y⟩

/-- Componentwise reciprocal, modelling `1.0 / Vec2` (`f32::div` by a vector). -/
def Vec2.recip (a : Vec2) : Vec2 := ⟨1 / a.x, 1 / a.y⟩

/-- Rational 3D vector, modelling `glam`/`bevy_math` `Vec3A`. -/
structure Vec3 where
  x : ℚ
  y : ℚ
  z : ℚ
deriving DecidableEq

/-- Componentwise addition of 3D vectors. -/
def Vec3.add (a b : Vec3) : Vec3 := ⟨a.x + b.x, a.y + b.y, a.z + b.z⟩

/-- Componentwise subtraction of 3D vectors. -/
def Vec3.sub (a b : Vec3) : Vec3 := ⟨a.x - b.x, a.y - b.y, a.z - b.z⟩

/-- Vector-times-scalar product for 3D vectors. -/
def Vec3.scale (a : Vec3) (s : ℚ) : Vec3 := ⟨a.x * s, a.y * s, a.z * s⟩

/-- Cross product, modelling `glam::Vec3A::cross`. -/
def Vec3.cross (a b : Vec3) : Vec3 :=
  ⟨a.y * b.z - a.z * b.y, a.z * b.x - a.x * b.z, a.x * b.y - a.y * b.x⟩

/-- Rational 4D vector, modelling an `[f32; 4]` array. -/
structure Vec4 where
  x : ℚ
  y : ℚ
  z : ℚ
  w : ℚ
deriving DecidableEq

/-- Axis-aligned rectangle in pixel space, modelling `bevy_math::Rect`. -/
structure Rect where
  min : Vec2
  max : Vec2
deriving DecidableEq

/-- Size of a rectangle, modelling `Rect::size` (`max - min`). -/
def Rect.size (r : Rect) : Vec2 := ⟨r.max.x - r.min.x, r.max.y - r.min.y⟩

/-- Column-major 3x3 matrix, modelling `glam::Mat3A`. -/
structure Mat3A where
  x_axis : Vec3
  y_axis : Vec3
  z_axis : Vec3
deriving DecidableEq

/-- Matrix-vector product, modelling `Mat3A * Vec3A`. -/
def Mat3A.mulVec (m : Mat3A) (v : Vec3) : Vec3 :=
  Vec3.add (Vec3.add (Vec3.scale m.x_axis v.x) (Vec3.scale m.y_axis v.y))
    (Vec3.scale m.z_axis v.z)

/-- Affine transform, modelling `glam::Affine3A`. -/
structure Affine3A where
  matrix3 : Mat3A
  translation : Vec3
deriving DecidableEq

/-- Affine point transformation: `self.matrix3 * p + self.translation`,
modelling `Affine3A::transform_point3a`. -/
def Affine3A.transform_point3a (t : Affine3A) (p : Vec3) : Vec3 :=
  Vec3.add (t.matrix3.mulVec p) t.translation

/-- World pose of a sprite entity, modelling `bevy_transform::GlobalTransform`;
`affine` is the value returned by `GlobalTransform::affine()`. -/
structure GlobalTransform where
  affine : Affine3A
deriving DecidableEq

/-- Sprite anchor, modelling `bevy_sprite::Anchor`; `as_vec` is the value of
`Anchor::as_vec()`, a normalized point with each axis in `[-0.5, 0.5]`. -/
structure Anchor where
  as_vec : Vec2
deriving DecidableEq

/-- Sprite tint, modelling `bevy_color::Color` as four opaque stored
components; the conversion `to_linear().to_f32_array()` is abstracted as a
function parameter `toLin`. -/
structure Color where
  c0 : ℚ
  c1 : ℚ
  c2 : ℚ
  c3 : ℚ
deriving DecidableEq

/-- Per-instance sprite descriptor, modelling the `Sprite3d` component
(`src/lib.rs` lines 90-98). -/
structure Sprite3d where
  color : Color
  flip_x : Bool
  flip_y : Bool
  custom_size : Option Vec2
  rect : Option Rect
  anchor : Anchor
deriving DecidableEq

/-- Vertex attribute payloads, modelling
`bevy_render::mesh::VertexAttributeValues` (all 28 variants). -/
inductive VertexAttributeValues where
  | Float32 (values : List ℚ)
  | Sint32 (values : List ℤ)
  | Uint32 (values : List ℕ)
  | Float32x2 (values : List Vec2)
  | Sint32x2 (values : List (ℤ × ℤ))
  | Uint32x2 (values : List (ℕ × ℕ))
  | Float32x3 (values : List Vec3)
  | Sint32x3 (values : List (ℤ × ℤ × ℤ))
  | Uint32x3 (values : List (ℕ × ℕ × ℕ))
  | Float32x4 (values : List Vec4)
  | Sint32x4 (values : List (ℤ × ℤ × ℤ × ℤ))
  | Uint32x4 (values : List (ℕ × ℕ × ℕ × ℕ))
  | Sint16x2 (values : List (ℤ × ℤ))
  | Snorm16x2 (values : List (ℤ × ℤ))
  | Uint16x2 (values : List (ℕ × ℕ))
  | Unorm16x2 (values : List (ℕ × ℕ))
  | Sint16x4 (values : List (ℤ × ℤ × ℤ × ℤ))
  | Snorm16x4 (values : List (ℤ × ℤ × ℤ × ℤ))
  | Uint16x4 (values : List (ℕ × ℕ × ℕ × ℕ))
  | Unorm16x4 (values : List (ℕ × ℕ × ℕ × ℕ))
  | Sint8x2 (values : List (ℤ × ℤ))
  | Snorm8x2 (values : List (ℤ × ℤ))
  | Uint8x2 (values : List (ℕ × ℕ))
  | Unorm8x2 (values : List (ℕ × ℕ))
  | Sint8x4 (values : List (ℤ × ℤ × ℤ × ℤ))
  | Snorm8x4 (values : List (ℤ × ℤ × ℤ × ℤ))
  | Uint8x4 (values : List (ℕ × ℕ × ℕ × ℕ))
  | Unorm8x4 (values : List (ℕ × ℕ × ℕ × ℕ))
deriving DecidableEq

/-- Index buffer, modelling `bevy_render::mesh::Indices`; index values are
naturals standing for `u16` / `u32` machine integers. -/
inductive Indices where
  | U16 (values : List ℕ)
  | U32 (values : List ℕ)
deriving DecidableEq

/-- Attribute id of `Mesh::ATTRIBUTE_POSITION`. -/
def ATTRIBUTE_POSITION : ℕ := 0

/-- Attribute id of `Mesh::ATTRIBUTE_NORMAL`. -/
def ATTRIBUTE_NORMAL : ℕ := 1

/-- Attribute id of `Mesh::ATTRIBUTE_UV_0`. -/
def ATTRIBUTE_UV_0 : ℕ := 2

/-- Attribute id of `Mesh::ATTRIBUTE_COLOR`. -/
def ATTRIBUTE_COLOR : ℕ := 5

/-- Mesh asset, modelling `bevy_render::mesh::Mesh`: an optional index buffer
plus a keyed collection of vertex attribute arrays. -/
structure Mesh where
  indices : Option Indices
  attributes : List (ℕ × VertexAttributeValues)
deriving DecidableEq

/-- Attribute lookup, modelling `Mesh::attribute` / `Mesh::attribute_mut`. -/
def Mesh.attribute (m : Mesh) (i : ℕ) : Option VertexAttributeValues :=
  (m.attributes.find? (fun p => p.1 == i)).map Prod.snd

/-- Functional write-back of a mutation performed through
`Mesh::attribute_mut`: replaces the payload stored at attribute id `i`. -/
def Mesh.setAttribute (m : Mesh) (i : ℕ) (v : VertexAttributeValues) : Mesh :=
  { m with attributes := m.attributes.map (fun p => if p.1 == i then (p.1, v) else p) }

/-- Attribute insertion, modelling `Mesh::insert_attribute`. -/
def Mesh.insert_attribute (m : Mesh) (i : ℕ) (v : VertexAttributeValues) : Mesh :=
  if (m.attributes.find? (fun p => p.1 == i)).isSome then m.setAttribute i v
  else { m with attributes := m.attributes ++ [(i, v)] }

/-- Index insertion, modelling `Mesh::insert_indices`. -/
def Mesh.insert_indices (m : Mesh) (ix : Indices) : Mesh :=
  { m with indices := some ix }

/-- A freshly constructed mesh, modelling
`Mesh::new(PrimitiveTopology::TriangleList, RenderAssetUsages::all())`
(the topology and usage flags carry no behaviour used by the core). -/
def Mesh.new : Mesh := ⟨none, []⟩

/-- Embedding of `create_mesh` (`src/lib.rs` lines 173-181). -/
def create_mesh : Mesh :=
  ((((Mesh.new.insert_indices (Indices.U32 [])).insert_attribute
      ATTRIBUTE_POSITION (VertexAttributeValues.Float32x3 [])).insert_attribute
      ATTRIBUTE_UV_0 (VertexAttributeValues.Float32x2 [])).insert_attribute
      ATTRIBUTE_NORMAL (VertexAttributeValues.Float32x3 [])).insert_attribute
      ATTRIBUTE_COLOR (VertexAttributeValues.Float32x4 [])

/-- Clearing of one attribute payload, the per-variant body of the loop in
`clear_mesh` (`src/lib.rs` lines 261-292). -/
def clearValues : VertexAttributeValues → VertexAttributeValues
  | VertexAttributeValues.Float32 _ => VertexAttributeValues.Float32 []
  | VertexAttributeValues.Sint32 _ => VertexAttributeValues.Sint32 []
  | VertexAttributeValues.Uint32 _ => VertexAttributeValues.Uint32 []
  | VertexAttributeValues.Float32x2 _ => VertexAttributeValues.Float32x2 []
  | VertexAttributeValues.Sint32x2 _ => VertexAttributeValues.Sint32x2 []
  | VertexAttributeValues.Uint32x2 _ => VertexAttributeValues.Uint32x2 []
  | VertexAttributeValues.Float32x3 _ => VertexAttributeValues.Float32x3 []
  | VertexAttributeValues.Sint32x3 _ => VertexAttributeValues.Sint32x3 []
  | VertexAttributeValues.Uint32x3 _ => VertexAttributeValues.Uint32x3 []
  | VertexAttributeValues.Float32x4 _ => VertexAttributeValues.Float32x4 []
  | VertexAttributeValues.Sint32x4 _ => VertexAttributeValues.Sint32x4 []
  | VertexAttributeValues.Uint32x4 _ => VertexAttributeValues.Uint32x4 []
  | VertexAttributeValues.Sint16x2 _ => VertexAttributeValues.Sint16x2 []
  | VertexAttributeValues.Snorm16x2 _ => VertexAttributeValues.Snorm16x2 []
  | VertexAttributeValues.Uint16x2 _ => VertexAttributeValues.Uint16x2 []
  | VertexAttributeValues.Unorm16x2 _ => VertexAttributeValues.Unorm16x2 []
  | VertexAttributeValues.Sint16x4 _ => VertexAttributeValues.Sint16x4 []
  | VertexAttributeValues.Snorm16x4 _ => VertexAttributeValues.Snorm16x4 []
  | VertexAttributeValues.Uint16x4 _ => VertexAttributeValues.Uint16x4 []
  | VertexAttributeValues.Unorm16x4 _ => VertexAttributeValues.Unorm16x4 []
  | VertexAttributeValues.Sint8x2 _ => VertexAttributeValues.Sint8x2 []
  | VertexAttributeValues.Snorm8x2 _ => VertexAttributeValues.Snorm8x2 []
  | VertexAttributeValues.Uint8x2 _ => VertexAttributeValues.Uint8x2 []
  | VertexAttributeValues.Unorm8x2 _ => VertexAttributeValues.Unorm8x2 []
  | VertexAttributeValues.Sint8x4 _ => VertexAttributeValues.Sint8x4 []
  | VertexAttributeValues.Snorm8x4 _ => VertexAttributeValues.Snorm8x4 []
  | VertexAttributeValues.Uint8x4 _ => VertexAttributeValues.Uint8x4 []
  | VertexAttributeValues.Unorm8x4 _ => VertexAttributeValues.Unorm8x4 []

/-- Embedding of `clear_mesh` (`src/lib.rs` lines 255-293): empties the index
buffer (whatever its width) and every attribute array in place. -/
def clear_mesh (m : Mesh) : Mesh :=
  { indices :=
      match m.indices with
      | some (Indices.U16 _) => some (Indices.U16 [])
      | some (Indices.U32 _) => some (Indices.U32 [])
      | none => none,
    attributes := m.attributes.map (fun p => (p.1, clearValues p.2)) }

/-- The `u32` modulus: `mesh_positions.len() as u32` truncates to this base and
index additions wrap around it. -/
def U32_MOD : ℕ := 4294967296

/-- Embedding of `submit_sprite` (`src/lib.rs` lines 183-253).  `nz` stands
for `Vec3A::normalize`, `toLin` for `Color::to_linear().to_f32_array()`.
Returns `none` exactly where the source panics (a required attribute or the
`U32` index array is missing). -/
def submit_sprite (nz : Vec3 → Vec3) (toLin : Color → Vec4) (mesh : Mesh)
    (sprite : Sprite3d) (sprite_transf : GlobalTransform)
    (sprite_mat_size sprite_size : Vec2) : Option Mesh :=
  let isize := Vec2.recip sprite_mat_size
  let hsize := Vec2.scale sprite_size (1 / 2)
  let transf := sprite_transf.affine
  let offset2 := Vec2.mul (Vec2.neg sprite.anchor.as_vec) sprite_size
  let offset : Vec3 := ⟨offset2.x, offset2.y, 0⟩
  let bl := transf.transform_point3a (Vec3.add ⟨-hsize.x, -hsize.y, 0⟩ offset)
  let br := transf.transform_point3a (Vec3.add ⟨hsize.x, -hsize.y, 0⟩ offset)
  let tr := transf.transform_point3a (Vec3.add ⟨hsize.x, hsize.y, 0⟩ offset)
  let tl := transf.transform_point3a (Vec3.add ⟨-hsize.x, hsize.y, 0⟩ offset)
  let norm := nz (Vec3.cross (Vec3.sub br bl) (Vec3.sub tl bl))
  let uv0 : Vec2 × Vec2 × Vec2 × Vec2 :=
    match sprite.rect with
    | some rect =>
        (⟨rect.min.x * isize.x, rect.max.y * isize.y⟩,
         ⟨rect.max.x * isize.x, rect.max.y * isize.y⟩,
         ⟨rect.max.x * isize.x, rect.min.y * isize.y⟩,
         ⟨rect.min.x * isize.x, rect.min.y * isize.y⟩)
    | none => (⟨0, 1⟩, ⟨1, 1⟩, ⟨1, 0⟩, ⟨0, 0⟩)
  let uv1 : Vec2 × Vec2 × Vec2 × Vec2 :=
    if sprite.flip_x then
      (⟨uv0.2.1.x, uv0.1.y⟩, ⟨uv0.1.x, uv0.2.1.y⟩,
       ⟨uv0.2.2.2.x, uv0.2.2.1.y⟩, ⟨uv0.2.2.1.x, uv0.2.2.2.y⟩)
    else uv0
  let uv2 : Vec2 × Vec2 × Vec2 × Vec2 :=
    if sprite.flip_y then
      (⟨uv1.1.x, uv1.2.2.2.y⟩, ⟨uv1.2.1.x, uv1.2.2.1.y⟩,
       ⟨uv1.2.2.1.x, uv1.2.1.y⟩, ⟨uv1.2.2.2.x, uv1.1.y⟩)
    else uv1
  match mesh.attribute ATTRIBUTE_POSITION with
  | some (VertexAttributeValues.Float32x3 values) =>
    let i := values.length % U32_MOD
    let mesh := mesh.setAttribute ATTRIBUTE_POSITION
      (VertexAttributeValues.Float32x3 (values ++ [bl, br, tr, tl]))
    match mesh.attribute ATTRIBUTE_UV_0 with
    | some (VertexAttributeValues.Float32x2 uvs) =>
      let mesh := mesh.setAttribute ATTRIBUTE_UV_0
        (VertexAttributeValues.Float32x2 (uvs ++ [uv2.1, uv2.2.1, uv2.2.2.1, uv2.2.2.2]))
      match mesh.attribute ATTRIBUTE_NORMAL with
      | some (VertexAttributeValues.Float32x3 norms) =>
        let mesh := mesh.setAttribute ATTRIBUTE_NORMAL
          (VertexAttributeValues.Float32x3 (norms ++ [norm, norm, norm, norm]))
        match mesh.attribute ATTRIBUTE_COLOR with
        | some (VertexAttributeValues.Float32x4 colors) =>
          let color := toLin sprite.color
          let mesh := mesh.setAttribute ATTRIBUTE_COLOR
            (VertexAttributeValues.Float32x4 (colors ++ [color, color, color, color]))
          match mesh.indices with
          | some (Indices.U32 mesh_indices) =>
            some { mesh with indices := some (Indices.U32 (mesh_indices ++
              [(i + 0) % U32_MOD, (i + 1) % U32_MOD, (i + 2) % U32_MOD,
               (i + 2) % U32_MOD, (i + 3) % U32_MOD, (i + 0) % U32_MOD])) }
          | _ => none
        | _ => none
      | _ => none
    | _ => none
  | _ => none

/-- Handle of a material asset, modelling `Handle<M>` (an opaque id; equality
decides which sprites share a batch). -/
abbrev MatHandle : Type := ℕ

/-- Generic sized material as seen by the batching core: `size` is the value
of the `SizedMaterial::size(&self, images)` capability for the frame's image
store (`None` when the material reports no native pixel size). -/
structure Material where
  size : Option Vec2
deriving DecidableEq

/-- The material asset store `Assets<M>` (combined with the image store read
by the `size` capability): `none` means the material asset is not loaded. -/
def MaterialAssets : Type := MatHandle → Option Material

/-- The mesh asset store `Assets<Mesh>`: a growable store where `add` hands
out fresh handles.  `next` is the next fresh handle; every live handle is
below it. -/
structure MeshesAssets where
  next : ℕ
  store : List (ℕ × Mesh)
deriving DecidableEq

/-- Lookup, modelling `Assets::<Mesh>::get` / `get_mut`. -/
def MeshesAssets.get (a : MeshesAssets) (h : ℕ) : Option Mesh :=
  (a.store.find? (fun p => p.1 == h)).map Prod.snd

/-- Write-back of a mutation performed through `Assets::<Mesh>::get_mut`. -/
def MeshesAssets.set (a : MeshesAssets) (h : ℕ) (m : Mesh) : MeshesAssets :=
  { a with store := a.store.map (fun p => if p.1 == h then (p.1, m) else p) }

/-- Insertion of a fresh asset, modelling `Assets::<Mesh>::add`; the new
asset's handle is `a.next`. -/
def MeshesAssets.add (a : MeshesAssets) (m : Mesh) : MeshesAssets :=
  ⟨a.next + 1, a.store ++ [(a.next, m)]⟩

/-- Deferred ECS command log, modelling `bevy_ecs::Commands` as observed by
the core: entity spawns of `MaterialMeshBundle`s (entity id, material handle,
mesh handle) and entity despawns.  `next_entity` is the next fresh entity
id. -/
structure Commands where
  next_entity : ℕ
  spawned : List (ℕ × MatHandle × ℕ)
  despawned : List ℕ
deriving DecidableEq

/-- The mesh batch registry, modelling the `MeshBatch<M>` resource
(`src/lib.rs` lines 100-103): a map from material handle to the pair
(mesh-owning entity, mesh asset handle), modelled as an association list. -/
structure MeshBatch where
  meshes : List (MatHandle × ℕ × ℕ)
deriving DecidableEq

/-- Effective sprite size resolution, the `match` of `MeshBatch::submit`
(`src/lib.rs` lines 130-134): `custom_size` first, then the source rect's
size, then the material's native size. -/
def resolveSpriteSize (sprite : Sprite3d) (sprite_mat_size : Vec2) : Vec2 :=
  match sprite.custom_size, sprite.rect with
  | some custom_size, _ => custom_size
  | none, some rect => rect.size
  | none, none => sprite_mat_size

/-- Embedding of `MeshBatch::submit` (`src/lib.rs` lines 116-153).  Returns
the updated registry, mesh store and command log; `none` models a panic
(`unwrap` failure or a `submit_sprite` panic).  The two `let ... else return`
lines of the source are the first two `match` arms returning the inputs
unchanged. -/
def MeshBatch.submit (nz : Vec3 → Vec3) (toLin : Color → Vec4)
    (self : MeshBatch) (sprite : Sprite3d) (sprite_transf : GlobalTransform)
    (sprite_mat_handle : MatHandle) (meshes : MeshesAssets)
    (materials : MaterialAssets) (commands : Commands) :
    Option (MeshBatch × MeshesAssets × Commands) :=
  match materials sprite_mat_handle with
  | none => some (self, meshes, commands)
  | some sprite_mat =>
    match sprite_mat.size with
    | none => some (self, meshes, commands)
    | some sprite_mat_size =>
      let sprite_size := resolveSpriteSize sprite sprite_mat_size
      let res : MeshBatch × MeshesAssets × Commands × ℕ :=
        match self.meshes.find? (fun e => e.1 == sprite_mat_handle) with
        | some e => (self, meshes, commands, e.2.2)
        | none =>
          let mesh_handle := meshes.next
          let meshes2 := meshes.add create_mesh
          let mesh_entity := commands.next_entity
          let commands2 : Commands :=
            ⟨commands.next_entity + 1,
             commands.spawned ++ [(mesh_entity, sprite_mat_handle, mesh_handle)],
             commands.despawned⟩
          (⟨self.meshes ++ [(sprite_mat_handle, mesh_entity, mesh_handle)]⟩,
           meshes2, commands2, mesh_handle)
      match res.2.1.get res.2.2.2 with
      | none => none
      | some mesh =>
        match submit_sprite nz toLin mesh sprite sprite_transf sprite_mat_size sprite_size with
        | none => none
        | some mesh2 => some (res.1, res.2.1.set res.2.2.2 mesh2, res.2.2.1)

/-- Recursive body of `HashMap::retain` in
`MeshBatch::remove_unloaded_meshes`: keeps entries whose material is loaded
and despawns the mesh entity of every other entry, in iteration order. -/
def retainGo (materials : MaterialAssets) :
    List (MatHandle × ℕ × ℕ) → Commands → List (MatHandle × ℕ × ℕ) × Commands
  | [], c => ([], c)
  | e :: rest, c =>
    if (materials e.1).isSome then
      let r := retainGo materials rest c
      (e :: r.1, r.2)
    else
      retainGo materials rest ⟨c.next_entity, c.spawned, c.despawned ++ [e.2.1]⟩

/-- Embedding of `MeshBatch::remove_unloaded_meshes` (`src/lib.rs` lines
155-163). -/
def MeshBatch.remove_unloaded_meshes (self : MeshBatch)
    (materials : MaterialAssets) (commands : Commands) : MeshBatch × Commands :=
  let r := retainGo materials self.meshes commands
  (⟨r.1⟩, r.2)

/-- Recursive body of the loop in `MeshBatch::clear_meshes`: clears the mesh
of every entry; `none` models the `unwrap` panic on a dangling mesh handle. -/
def clearMeshesGo :
    List (MatHandle × ℕ × ℕ) → MeshesAssets → Option MeshesAssets
  | [], assets => some assets
  | e :: rest, assets =>
    match assets.get e.2.2 with
    | none => none
    | some mesh => clearMeshesGo rest (assets.set e.2.2 (clear_mesh mesh))

/-- Embedding of `MeshBatch::clear_meshes` (`src/lib.rs` lines 165-170). -/
def MeshBatch.clear_meshes (self : MeshBatch) (mesh_assets : MeshesAssets) :
    Option MeshesAssets :=
  clearMeshesGo self.meshes mesh_assets

/-- One row of the `batch_sprites` query: a sprite descriptor, its world
pose, its material handle and its inherited visibility flag. -/
structure SpriteInstance where
  sprite : Sprite3d
  transform : GlobalTransform
  material : MatHandle
  visible : Bool
deriving DecidableEq

/-- The submit loop of `batch_sprites` (`src/lib.rs` lines 64-76): invisible
sprites are skipped, each visible sprite is submitted in iteration order. -/
def submitVisible (nz : Vec3 → Vec3) (toLin : Color → Vec4)
    (materials : MaterialAssets) :
    List SpriteInstance → MeshBatch → MeshesAssets → Commands →
    Option (MeshBatch × MeshesAssets × Commands)
  | [], mb, a, c => some (mb, a, c)
  | s :: rest, mb, a, c =>
    if s.visible then
      match MeshBatch.submit nz toLin mb s.sprite s.transform s.material a materials c with
      | none => none
      | some r => submitVisible nz toLin materials rest r.1 r.2.1 r.2.2
    else submitVisible nz toLin materials rest mb a c

/-- Embedding of the `batch_sprites` system (`src/lib.rs` lines 49-77): one
full rebuild cycle, prune then clear then submit-all. -/
def batch_sprites (nz : Vec3 → Vec3) (toLin : Color → Vec4)
    (sprites : List SpriteInstance) (mb : MeshBatch)
    (materials : MaterialAssets) (meshes : MeshesAssets) (commands : Commands) :
    Option (MeshBatch × MeshesAssets × Commands) :=
  let pr := mb.remove_unloaded_meshes materials commands
  match pr.1.clear_meshes meshes with
  | none => none
  | some meshes2 => submitVisible nz toLin materials sprites pr.1 meshes2 pr.2

/-- The MeshBuffer view of a mesh in the layout produced by `create_mesh`:
four vertex-attribute arrays plus a `U32` triangle-index array. -/
structure MeshData where
  positions : List Vec3
  uvs : List Vec2
  normals : List Vec3
  colors : List Vec4
  indices : List ℕ
deriving DecidableEq

/-- The empty MeshBuffer. -/
def emptyData : MeshData := ⟨[], [], [], [], []⟩

/-- The mesh holding a given MeshBuffer, with the attribute layout (ids and
order) produced by `create_mesh`. -/
def toMesh (d : MeshData) : Mesh :=
  { indices := some (Indices.U32 d.indices),
    attributes :=
      [(ATTRIBUTE_POSITION, VertexAttributeValues.Float32x3 d.positions),
       (ATTRIBUTE_UV_0, VertexAttributeValues.Float32x2 d.uvs),
       (ATTRIBUTE_NORMAL, VertexAttributeValues.Float32x3 d.normals),
       (ATTRIBUTE_COLOR, VertexAttributeValues.Float32x4 d.colors)] }

/-- Action of `submit_sprite` on the MeshBuffer view: the quad geometry
appended by one successful submission, computed exactly as in
`submit_sprite`. -/
def appendQuadData (nz : Vec3 → Vec3) (toLin : Color → Vec4) (d : MeshData)
    (sprite : Sprite3d) (sprite_transf : GlobalTransform)
    (sprite_mat_size sprite_size : Vec2) : MeshData :=
  let isize := Vec2.recip sprite_mat_size
  let hsize := Vec2.scale sprite_size (1 / 2)
  let transf := sprite_transf.affine
  let offset2 := Vec2.mul (Vec2.neg sprite.anchor.as_vec) sprite_size
  let offset : Vec3 := ⟨offset2.x, offset2.y, 0⟩
  let bl := transf.transform_point3a (Vec3.add ⟨-hsize.x, -hsize.y, 0⟩ offset)
  let br := transf.transform_point3a (Vec3.add ⟨hsize.x, -hsize.y, 0⟩ offset)
  let tr := transf.transform_point3a (Vec3.add ⟨hsize.x, hsize.y, 0⟩ offset)
  let tl := transf.transform_point3a (Vec3.add ⟨-hsize.x, hsize.y, 0⟩ offset)
  let norm := nz (Vec3.cross (Vec3.sub br bl) (Vec3.sub tl bl))
  let uv0 : Vec2 × Vec2 × Vec2 × Vec2 :=
    match sprite.rect with
    | some rect =>
        (⟨rect.min.x * isize.x, rect.max.y * isize.y⟩,
         ⟨rect.max.x * isize.x, rect.max.y * isize.y⟩,
         ⟨rect.max.x * isize.x, rect.min.y * isize.y⟩,
         ⟨rect.min.x * isize.x, rect.min.y * isize.y⟩)
    | none => (⟨0, 1⟩, ⟨1, 1⟩, ⟨1, 0⟩, ⟨0, 0⟩)
  let uv1 : Vec2 × Vec2 × Vec2 × Vec2 :=
    if sprite.flip_x then
      (⟨uv0.2.1.x, uv0.1.y⟩, ⟨uv0.1.x, uv0.2.1.y⟩,
       ⟨uv0.2.2.2.x, uv0.2.2.1.y⟩, ⟨uv0.2.2.1.x, uv0.2.2.2.y⟩)
    else uv0
  let uv2 : Vec2 × Vec2 × Vec2 × Vec2 :=
    if sprite.flip_y then
      (⟨uv1.1.x, uv1.2.2.2.y⟩, ⟨uv1.2.1.x, uv1.2.2.1.y⟩,
       ⟨uv1.2.2.1.x, uv1.2.1.y⟩, ⟨uv1.2.2.2.x, uv1.1.y⟩)
    else uv1
  let i := d.positions.length % U32_MOD
  let color := toLin sprite.color
  { positions := d.positions ++ [bl, br, tr, tl],
    uvs := d.uvs ++ [uv2.1, uv2.2.1, uv2.2.2.1, uv2.2.2.2],
    normals := d.normals ++ [norm, norm, norm, norm],
    colors := d.colors ++ [color, color, color, color],
    indices := d.indices ++
      [(i + 0) % U32_MOD, (i + 1) % U32_MOD, (i + 2) % U32_MOD,
       (i + 2) % U32_MOD, (i + 3) % U32_MOD, (i + 0) % U32_MOD] }

/-- Effect of one queried sprite row on the MeshBuffer of the batch entry of
material `mat`: appends a quad when the row is visible, uses this material,
and the material is loaded with a resolvable size; otherwise leaves the
buffer unchanged. -/
def spriteStep (nz : Vec3 → Vec3) (toLin : Color → Vec4)
    (materials : MaterialAssets) (mat : MatHandle) (d : MeshData)
    (s : SpriteInstance) : MeshData :=
  if s.visible && (s.material == mat) then
    match materials s.material with
    | none => d
    | some m =>
      match m.size with
      | none => d
      | some ms => appendQuadData nz toLin d s.sprite s.transform ms (resolveSpriteSize s.sprite ms)
  else d

/-- MeshBuffer contents of the batch entry of material `mat` after one full
rebuild cycle over `sprites`, starting from the cleared (empty) buffer. -/
def rebuildData (nz : Vec3 → Vec3) (toLin : Color → Vec4)
    (materials : MaterialAssets) (mat : MatHandle)
    (sprites : List SpriteInstance) : MeshData :=
  sprites.foldl (spriteStep nz toLin materials mat) emptyData

/-- Index pattern of `k` quads: quad `N` contributes the two triangles
`(4N, 4N+1, 4N+2)` and `(4N+2, 4N+3, 4N)`. -/
def quadIndices : ℕ → List ℕ
  | 0 => []
  | k + 1 => quadIndices k ++
      [4 * k, 4 * k + 1, 4 * k + 2, 4 * k + 2, 4 * k + 3, 4 * k]

/-- Well-formedness of a mesh asset store: every stored handle is below the
next fresh handle. -/
def MeshesAssets.WF (a : MeshesAssets) : Prop :=
  ∀ p ∈ a.store, p.1 < a.next

/-- Well-formedness of the registry relative to the mesh store: material
keys are pairwise distinct, mesh handles are pairwise distinct, and every
mesh handle is live (below the store's next fresh handle). -/
def MeshBatch.WF (mb : MeshBatch) (a : MeshesAssets) : Prop :=
  (mb.meshes.map (fun e => e.1)).Nodup ∧
  (mb.meshes.map (fun e => e.2.2)).Nodup ∧
  ∀ e ∈ mb.meshes, e.2.2 < a.next

/-- Every registry entry's mesh exists in the store and has the attribute
layout produced by `create_mesh` (holds for all meshes the core ever
creates). -/
def StdEntries (mb : MeshBatch) (a : MeshesAssets) : Prop :=
  ∀ e ∈ mb.meshes, ∃ d, a.get e.2.2 = some (toMesh d)

/-- Material keys of the registry entries. -/
def matsOf (mb : MeshBatch) : List MatHandle := mb.meshes.map (fun e => e.1)

theorem find?_map_keyed {β : Type} (f : ℕ × β → ℕ × β)
    (hf : ∀ p, (f p).1 = p.1) (l : List (ℕ × β)) (q : ℕ) :
    (l.map f).find? (fun p => p.1 == q) = (l.find? (fun p => p.1 == q)).map f := by
  induction l with
  | nil => rfl
  | cons p rest ih =>
    simp only [List.map_cons, List.find?]
    rw [hf p]
    cases hpq : (p.1 == q)
    · simpa using ih
    · simp

theorem get_set_self (a : MeshesAssets) (h : ℕ) (m₀ m : Mesh)
    (hget : a.get h = some m₀) : (a.set h m).get h = some m := by
  unfold MeshesAssets.get MeshesAssets.set at *
  rw [find?_map_keyed (fun p => if p.1 == h then (p.1, m) else p)
    (by intro p; by_cases hp : (p.1 == h) = true <;> simp [hp])]
  cases hfind : a.store.find? (fun p => p.1 == h) with
  | none => rw [hfind] at hget; simp at hget
  | some p₀ =>
    have hkey := List.find?_some hfind
    simp only [beq_iff_eq] at hkey
    simp [hfind, hkey]

theorem get_set_ne (a : MeshesAssets) (h h' : ℕ) (m : Mesh) (hne : h' ≠ h) :
    (a.set h m).get h' = a.get h' := by
  unfold MeshesAssets.get MeshesAssets.set
  rw [find?_map_keyed (fun p => if p.1 == h then (p.1, m) else p)
    (by intro p; by_cases hp : (p.1 == h) = true <;> simp [hp])]
  cases hfind : a.store.find? (fun p => p.1 == h') with
  | none => simp [hfind]
  | some p₀ =>
    have hkey := List.find?_some hfind
    simp only [beq_iff_eq] at hkey
    have : (p₀.1 == h) = false := by
      simp [hkey]
      exact hne
    simp [hfind, this, hkey, hne]

theorem get_add_lt (a : MeshesAssets) (m : Mesh) (h : ℕ) (hlt : h < a.next) :
    (a.add m).get h = a.get h := by
  unfold MeshesAssets.get MeshesAssets.add
  rw [List.find?_append]
  cases hfind : a.store.find? (fun p => p.1 == h) with
  | some p₀ => simp [hfind]
  | none =>
    have : (a.next == h) = false := by
      simp
      exact Nat.ne_of_gt hlt
    simp [hfind, List.find?, this]

theorem get_add_next (a : MeshesAssets) (m : Mesh) (hWF : a.WF) :
    (a.add m).get a.next = some m := by
  unfold MeshesAssets.get MeshesAssets.add
  rw [List.find?_append]
  have hnone : a.store.find? (fun p => p.1 == a.next) = none := by
    rw [List.find?_eq_none]
    intro p hp
    simp
    exact Nat.ne_of_lt (hWF p hp)
  simp [hnone, List.find?]

theorem wf_set (a : MeshesAssets) (h : ℕ) (m : Mesh) (hWF : a.WF) :
    (a.set h m).WF := by
  intro p hp
  unfold MeshesAssets.set at hp
  simp only [List.mem_map] at hp
  obtain ⟨p₀, hp₀, hpe⟩ := hp
  have : p.1 = p₀.1 := by
    subst hpe
    by_cases hk : (p₀.1 == h) = true <;> simp [hk]
  rw [this]
  exact hWF p₀ hp₀

theorem wf_add (a : MeshesAssets) (m : Mesh) (hWF : a.WF) : (a.add m).WF := by
  intro p hp
  unfold MeshesAssets.add at hp
  simp only [List.mem_append, List.mem_singleton] at hp
  rcases hp with hp | hp
  · exact Nat.lt_succ_of_lt (hWF p hp)
  · rw [hp]
    exact Nat.lt_succ_self _

theorem next_set (a : MeshesAssets) (h : ℕ) (m : Mesh) :
    (a.set h m).next = a.next := rfl

theorem next_add (a : MeshesAssets) (m : Mesh) :
    (a.add m).next = a.next + 1 := rfl

theorem create_mesh_eq_toMesh : create_mesh = toMesh emptyData := rfl

theorem clear_mesh_toMesh (d : MeshData) :
    clear_mesh (toMesh d) = toMesh emptyData := rfl

theorem submit_sprite_toMesh (nz : Vec3 → Vec3) (toLin : Color → Vec4)
    (d : MeshData) (sprite : Sprite3d) (t : GlobalTransform) (ms ss : Vec2) :
    submit_sprite nz toLin (toMesh d) sprite t ms ss =
      some (toMesh (appendQuadData nz toLin d sprite t ms ss)) := rfl

theorem retainGo_spec (materials : MaterialAssets)
    (l : List (MatHandle × ℕ × ℕ)) (c : Commands) :
    retainGo materials l c =
      (l.filter (fun e => (materials e.1).isSome),
       ⟨c.next_entity, c.spawned,
        c.despawned ++
          (l.filter (fun e => (materials e.1).isNone)).map (fun e => e.2.1)⟩) := by
  induction l generalizing c with
  | nil => simp [retainGo]
  | cons e rest ih =>
    cases hm : materials e.1 with
    | some v => simp [retainGo, hm, ih, List.filter_cons]
    | none => simp [retainGo, hm, ih, List.filter_cons]

theorem clearMeshesGo_spec (entries : List (MatHandle × ℕ × ℕ)) (a : MeshesAssets)
    (hWF : a.WF) (hnd : (entries.map (fun e => e.2.2)).Nodup)
    (hstd : ∀ e ∈ entries, ∃ d, a.get e.2.2 = some (toMesh d)) :
    ∃ a', clearMeshesGo entries a = some a' ∧ a'.WF ∧ a'.next = a.next ∧
      (∀ e ∈ entries, a'.get e.2.2 = some (toMesh emptyData)) ∧
      (∀ h, h ∉ entries.map (fun e => e.2.2) → a'.get h = a.get h) := by
  induction entries generalizing a with
  | nil => exact ⟨a, rfl, hWF, rfl, by simp, by simp⟩
  | cons e rest ih =>
    obtain ⟨d, hd⟩ := hstd e (List.mem_cons_self e rest)
    have hnd' : (rest.map (fun e => e.2.2)).Nodup := (List.nodup_cons.mp hnd).2
    have hnotin : e.2.2 ∉ rest.map (fun e => e.2.2) := (List.nodup_cons.mp hnd).1
    have hstep : clearMeshesGo (e :: rest) a =
        clearMeshesGo rest (a.set e.2.2 (clear_mesh (toMesh d))) := by
      simp [clearMeshesGo, hd]
    rw [clear_mesh_toMesh] at hstep
    have hWF1 : (a.set e.2.2 (toMesh emptyData)).WF := wf_set a _ _ hWF
    have hstd1 : ∀ e' ∈ rest, ∃ d',
        (a.set e.2.2 (toMesh emptyData)).get e'.2.2 = some (toMesh d') := by
      intro e' he'
      obtain ⟨d', hd'⟩ := hstd e' (List.mem_cons_of_mem e he')
      have hne : e'.2.2 ≠ e.2.2 := by
        intro hc
        exact hnotin (hc ▸ List.mem_map_of_mem (fun e => e.2.2) he')
      exact ⟨d', by rw [get_set_ne a _ _ _ hne]; exact hd'⟩
    obtain ⟨a', ha', hWF', hnext', hcl', huntouched'⟩ := ih _ hWF1 hnd' hstd1
    refine ⟨a', by rw [hstep]; exact ha', hWF', by rw [hnext']; rfl, ?_, ?_⟩
    · intro e' he'
      rcases List.mem_cons.mp he' with he' | he'
      · subst he'
        rw [huntouched' _ hnotin]
        exact get_set_self a _ _ _ hd
      · exact hcl' e' he'
    · intro h hh
      simp only [List.map_cons, List.mem_cons] at hh
      push_neg at hh
      rw [huntouched' h hh.2]
      exact get_set_ne a _ _ _ hh.1

theorem spriteStep_invisible (nz : Vec3 → Vec3) (toLin : Color → Vec4)
    (materials : MaterialAssets) (mat : MatHandle) (d : MeshData)
    (s : SpriteInstance) (hv : s.visible = false) :
    spriteStep nz toLin materials mat d s = d := by
  simp [spriteStep, hv]

theorem spriteStep_not_mat (nz : Vec3 → Vec3) (toLin : Color → Vec4)
    (materials : MaterialAssets) (mat : MatHandle) (d : MeshData)
    (s : SpriteInstance) (hne : s.material ≠ mat) :
    spriteStep nz toLin materials mat d s = d := by
  have : (s.material == mat) = false := by simpa using hne
  simp [spriteStep, this]

theorem spriteStep_unloaded (nz : Vec3 → Vec3) (toLin : Color → Vec4)
    (materials : MaterialAssets) (mat : MatHandle) (d : MeshData)
    (s : SpriteInstance) (hm : materials s.material = none) :
    spriteStep nz toLin materials mat d s = d := by
  unfold spriteStep
  rw [hm]
  split <;> rfl

theorem spriteStep_no_size (nz : Vec3 → Vec3) (toLin : Color → Vec4)
    (materials : MaterialAssets) (mat : MatHandle) (d : MeshData)
    (s : SpriteInstance) (m : Material) (hm : materials s.material = some m)
    (hs : m.size = none) :
    spriteStep nz toLin materials mat d s = d := by
  unfold spriteStep
  split
  · simp [hm, hs]
  · rfl

theorem spriteStep_hit (nz : Vec3 → Vec3) (toLin : Color → Vec4)
    (materials : MaterialAssets) (mat : MatHandle) (d : MeshData)
    (s : SpriteInstance) (m : Material) (ms : Vec2)
    (hv : s.visible = true) (hmat : s.material = mat)
    (hm : materials s.material = some m) (hs : m.size = some ms) :
    spriteStep nz toLin materials mat d s =
      appendQuadData nz toLin d s.sprite s.transform ms
        (resolveSpriteSize s.sprite ms) := by
  subst hmat
  simp [spriteStep, hv, hm, hs]

theorem submit_spec (nz : Vec3 → Vec3) (toLin : Color → Vec4)
    (sprite : Sprite3d) (t : GlobalTransform) (h : MatHandle)
    (mb : MeshBatch) (a : MeshesAssets) (c : Commands)
    (materials : MaterialAssets) (f : MatHandle → MeshData)
    (hWFa : a.WF) (hWFmb : mb.WF a)
    (hstd : ∀ e ∈ mb.meshes, a.get e.2.2 = some (toMesh (f e.1)))
    (hempty : ∀ mat, mat ∉ matsOf mb → f mat = emptyData) :
    ∃ mb' a' c',
      MeshBatch.submit nz toLin mb sprite t h a materials c = some (mb', a', c') ∧
      a'.WF ∧ mb'.WF a' ∧ a.next ≤ a'.next ∧
      (∃ ext, mb'.meshes = mb.meshes ++ ext) ∧
      (∀ e ∈ mb'.meshes, e ∈ mb.meshes ∨ (materials e.1).isSome) ∧
      (∀ mat, mat ∈ matsOf mb' ↔ (mat ∈ matsOf mb ∨
        (mat = h ∧ ∃ m ms, materials h = some m ∧ m.size = some ms))) ∧
      (∀ e ∈ mb'.meshes, a'.get e.2.2 =
        some (toMesh (spriteStep nz toLin materials e.1 (f e.1) ⟨sprite, t, h, true⟩))) := by
  cases hmat : materials h with
  | none =>
    refine ⟨mb, a, c, by simp [MeshBatch.submit, hmat], hWFa, hWFmb, le_refl _,
      ⟨[], by simp⟩, fun e he => Or.inl he, ?_, ?_⟩
    · intro mat
      simp [hmat]
    · intro e he
      rw [spriteStep_unloaded nz toLin materials e.1 (f e.1) _ hmat]
      exact hstd e he
  | some m₀ =>
    cases hsize : m₀.size with
    | none =>
      refine ⟨mb, a, c, by simp [MeshBatch.submit, hmat, hsize], hWFa, hWFmb, le_refl _,
        ⟨[], by simp⟩, fun e he => Or.inl he, ?_, ?_⟩
      · intro mat
        constructor
        · exact fun hm => Or.inl hm
        · rintro (hm | ⟨heq, m, ms, hm, hs⟩)
          · exact hm
          · exfalso
            simp_all
      · intro e he
        rw [spriteStep_no_size nz toLin materials e.1 (f e.1) _ m₀ hmat hsize]
        exact hstd e he
    | some ms₀ =>
      cases hfind : mb.meshes.find? (fun e => e.1 == h) with
      | some e₀ =>
        have he₀ : e₀ ∈ mb.meshes := List.mem_of_find?_eq_some hfind
        have hkey : e₀.1 = h := by
          have := List.find?_some hfind
          simpa using this
        have hget : a.get e₀.2.2 = some (toMesh (f e₀.1)) := hstd e₀ he₀
        have hrun : MeshBatch.submit nz toLin mb sprite t h a materials c =
            some (mb, a.set e₀.2.2 (toMesh (appendQuadData nz toLin (f e₀.1)
              sprite t ms₀ (resolveSpriteSize sprite ms₀))), c) := by
          simp only [MeshBatch.submit, hmat, hsize, hfind, hget, submit_sprite_toMesh]
        refine ⟨mb, _, c, hrun, wf_set a _ _ hWFa, hWFmb, le_refl _,
          ⟨[], by simp⟩, fun e he => Or.inl he, ?_, ?_⟩
        · intro mat
          constructor
          · exact fun hm => Or.inl hm
          · rintro (hm | ⟨rfl, _, _, _, _⟩)
            · exact hm
            · exact List.mem_map.mpr ⟨e₀, he₀, hkey⟩
        · intro e he
          by_cases hh : e.2.2 = e₀.2.2
          · have heq : e = e₀ :=
              List.inj_on_of_nodup_map hWFmb.2.1 he he₀ hh
            subst heq
            rw [get_set_self a _ _ _ hget]
            rw [spriteStep_hit nz toLin materials e.1 (f e.1) _ m₀ ms₀ rfl hkey.symm
              hmat hsize]
          · rw [get_set_ne a _ _ _ hh]
            have hne : e.1 ≠ h := by
              intro hc
              exact hh (congrArg (fun e => e.2.2)
                (List.inj_on_of_nodup_map hWFmb.1 he he₀ (hc.trans hkey.symm)))
            rw [spriteStep_not_mat nz toLin materials e.1 (f e.1) _ hne.symm]
            exact hstd e he
      | none =>
        have hnotin : h ∉ matsOf mb := by
          rw [List.find?_eq_none] at hfind
          intro hmem
          obtain ⟨e, he, hek⟩ := List.mem_map.mp hmem
          exact hfind e he (by simp [hek])
        have hfh : f h = emptyData := hempty h hnotin
        have hget1 : (a.add create_mesh).get a.next = some (toMesh emptyData) := by
          rw [get_add_next a _ hWFa, create_mesh_eq_toMesh]
        have hrun : MeshBatch.submit nz toLin mb sprite t h a materials c =
            some (⟨mb.meshes ++ [(h, c.next_entity, a.next)]⟩,
              (a.add create_mesh).set a.next (toMesh (appendQuadData nz toLin
                emptyData sprite t ms₀ (resolveSpriteSize sprite ms₀))),
              ⟨c.next_entity + 1, c.spawned ++ [(c.next_entity, h, a.next)],
               c.despawned⟩) := by
          simp only [MeshBatch.submit, hmat, hsize, hfind, hget1, submit_sprite_toMesh]
        refine ⟨_, _, _, hrun, wf_set _ _ _ (wf_add a _ hWFa), ?_, Nat.le_succ _,
          ⟨[(h, c.next_entity, a.next)], rfl⟩, ?_, ?_, ?_⟩
        · refine ⟨?_, ?_, ?_⟩
          · rw [List.map_append, List.nodup_append]
            refine ⟨hWFmb.1, List.nodup_singleton _, ?_⟩
            intro mat hm1 hm2
            simp only [List.map_cons, List.map_nil, List.mem_singleton] at hm2
            exact hnotin (hm2 ▸ hm1)
          · rw [List.map_append, List.nodup_append]
            refine ⟨hWFmb.2.1, List.nodup_singleton _, ?_⟩
            intro hx hm1 hm2
            simp only [List.map_cons, List.map_nil, List.mem_singleton] at hm2
            obtain ⟨e, he, hek⟩ := List.mem_map.mp hm1
            have := hWFmb.2.2 e he
            omega
          · intro e he
            rcases List.mem_append.mp he with he | he
            · have := hWFmb.2.2 e he
              have hn : ((a.add create_mesh).set a.next (toMesh (appendQuadData nz
                toLin emptyData sprite t ms₀ (resolveSpriteSize sprite ms₀)))).next =
                  a.next + 1 := rfl
              omega
            · rw [List.mem_singleton] at he
              subst he
              exact Nat.lt_succ_self _
        · intro e he
          rcases List.mem_append.mp he with he | he
          · exact Or.inl he
          · rw [List.mem_singleton] at he
            subst he
            exact Or.inr (by simp [hmat])
        · intro mat
          simp only [matsOf, List.map_append, List.map_cons, List.map_nil,
            List.mem_append, List.mem_singleton]
          constructor
          · rintro (hm | rfl)
            · exact Or.inl hm
            · exact Or.inr ⟨rfl, m₀, ms₀, rfl, hsize⟩
          · rintro (hm | ⟨rfl, _⟩)
            · exact Or.inl hm
            · exact Or.inr rfl
        · intro e he
          rcases List.mem_append.mp he with he | he
          · have hlt : e.2.2 < a.next := hWFmb.2.2 e he
            rw [get_set_ne _ _ _ _ (Nat.ne_of_lt hlt), get_add_lt a _ _ hlt]
            have hne : e.1 ≠ h := by
              intro hc
              exact hnotin (hc ▸ List.mem_map_of_mem (fun e => e.1) he)
            rw [spriteStep_not_mat nz toLin materials e.1 (f e.1) _ hne.symm]
            exact hstd e he
          · rw [List.mem_singleton] at he
            subst he
            rw [get_set_self _ _ _ _ hget1]
            rw [spriteStep_hit nz toLin materials h (f h) _ m₀ ms₀ rfl rfl hmat hsize,
              hfh]

theorem submitVisible_spec (nz : Vec3 → Vec3) (toLin : Color → Vec4)
    (materials : MaterialAssets) (sprites : List SpriteInstance) :
    ∀ (mb : MeshBatch) (a : MeshesAssets) (c : Commands) (f : MatHandle → MeshData),
    a.WF → mb.WF a →
    (∀ e ∈ mb.meshes, a.get e.2.2 = some (toMesh (f e.1))) →
    (∀ mat, mat ∉ matsOf mb → f mat = emptyData) →
    ∃ mb' a' c',
      submitVisible nz toLin materials sprites mb a c = some (mb', a', c') ∧
      a'.WF ∧ mb'.WF a' ∧
      (∃ ext, mb'.meshes = mb.meshes ++ ext) ∧
      (∀ e ∈ mb'.meshes, e ∈ mb.meshes ∨ (materials e.1).isSome) ∧
      (∀ mat, mat ∈ matsOf mb' ↔ (mat ∈ matsOf mb ∨ ∃ s ∈ sprites,
        s.visible = true ∧ s.material = mat ∧
        ∃ m ms, materials mat = some m ∧ m.size = some ms)) ∧
      (∀ e ∈ mb'.meshes, a'.get e.2.2 =
        some (toMesh (sprites.foldl (spriteStep nz toLin materials e.1) (f e.1)))) := by
  induction sprites with
  | nil =>
    intro mb a c f hWFa hWFmb hstd hempty
    exact ⟨mb, a, c, rfl, hWFa, hWFmb, ⟨[], by simp⟩, fun e he => Or.inl he,
      fun mat => by simp, fun e he => hstd e he⟩
  | cons s rest ih =>
    obtain ⟨spr, str, smat, svis⟩ := s
    intro mb a c f hWFa hWFmb hstd hempty
    cases svis with
    | false =>
      obtain ⟨mb', a', c', hrun, hWFa', hWFmb', hext, horigin, hkeys, hcontent⟩ :=
        ih mb a c f hWFa hWFmb hstd hempty
      refine ⟨mb', a', c', ?_, hWFa', hWFmb', hext, horigin, ?_, ?_⟩
      · simpa [submitVisible] using hrun
      · intro mat
        rw [hkeys mat]
        constructor
        · rintro (hm | ⟨x, hx, hP⟩)
          · exact Or.inl hm
          · exact Or.inr ⟨x, List.mem_cons_of_mem _ hx, hP⟩
        · rintro (hm | ⟨x, hx, hP⟩)
          · exact Or.inl hm
          · rcases List.mem_cons.mp hx with rfl | hx
            · exact absurd hP.1 (by simp)
            · exact Or.inr ⟨x, hx, hP⟩
      · intro e he
        rw [List.foldl_cons,
          spriteStep_invisible nz toLin materials e.1 (f e.1) _ rfl]
        exact hcontent e he
    | true =>
      obtain ⟨mb₁, a₁, c₁, hrun₁, hWFa₁, hWFmb₁, _, ⟨ext₁, hext₁⟩, horigin₁,
        hkeys₁, hcontent₁⟩ :=
        submit_spec nz toLin spr str smat mb a c materials f hWFa hWFmb hstd hempty
      have hempty₁ : ∀ mat, mat ∉ matsOf mb₁ →
          spriteStep nz toLin materials mat (f mat) ⟨spr, str, smat, true⟩ =
            emptyData := by
        intro mat hnot
        have hnot0 : mat ∉ matsOf mb := fun hc => hnot ((hkeys₁ mat).mpr (Or.inl hc))
        have hf0 : f mat = emptyData := hempty mat hnot0
        by_cases hms : smat = mat
        · subst hms
          cases hm : materials smat with
          | none =>
            rw [spriteStep_unloaded nz toLin materials smat (f smat) _ hm]
            exact hf0
          | some m =>
            cases hs : m.size with
            | none =>
              rw [spriteStep_no_size nz toLin materials smat (f smat) _ m hm hs]
              exact hf0
            | some ms =>
              exact absurd ((hkeys₁ smat).mpr (Or.inr ⟨rfl, m, ms, hm, hs⟩)) hnot
        · rw [spriteStep_not_mat nz toLin materials mat (f mat) _ hms]
          exact hf0
      obtain ⟨mb', a', c', hrun', hWFa', hWFmb', ⟨ext₂, hext₂⟩, horigin', hkeys',
        hcontent'⟩ :=
        ih mb₁ a₁ c₁
          (fun mat => spriteStep nz toLin materials mat (f mat) ⟨spr, str, smat, true⟩)
          hWFa₁ hWFmb₁ hcontent₁ hempty₁
      refine ⟨mb', a', c', ?_, hWFa', hWFmb',
        ⟨ext₁ ++ ext₂, by rw [hext₂, hext₁, List.append_assoc]⟩, ?_, ?_, ?_⟩
      · simpa [submitVisible, hrun₁] using hrun'
      · intro e he
        rcases horigin' e he with he₁ | hl
        · rcases horigin₁ e he₁ with he₀ | hl
          · exact Or.inl he₀
          · exact Or.inr hl
        · exact Or.inr hl
      · intro mat
        rw [hkeys' mat]
        rw [hkeys₁ mat]
        constructor
        · rintro ((hm | ⟨rfl, m, ms, hm, hs⟩) | ⟨x, hx, hP⟩)
          · exact Or.inl hm
          · exact Or.inr ⟨⟨spr, str, mat, true⟩, List.mem_cons_self _ _,
              rfl, rfl, m, ms, hm, hs⟩
          · exact Or.inr ⟨x, List.mem_cons_of_mem _ hx, hP⟩
        · rintro (hm | ⟨x, hx, hP⟩)
          · exact Or.inl (Or.inl hm)
          · rcases List.mem_cons.mp hx with rfl | hx
            · obtain ⟨_, hxm, m, ms, hm, hs⟩ := hP
              have hsm : smat = mat := hxm
              exact Or.inl (Or.inr ⟨hsm.symm, m, ms, by rw [hsm]; exact hm, hs⟩)
            · exact Or.inr ⟨x, hx, hP⟩
      · intro e he
        rw [List.foldl_cons]
        exact hcontent' e he

theorem mem_matsOf_filter (mb : MeshBatch) (materials : MaterialAssets)
    (mat : MatHandle) :
    mat ∈ matsOf ⟨mb.meshes.filter (fun e => (materials e.1).isSome)⟩ ↔
      (mat ∈ matsOf mb ∧ (materials mat).isSome) := by
  constructor
  · intro hm
    obtain ⟨e, he, rfl⟩ := List.mem_map.mp hm
    have hf := List.mem_filter.mp he
    exact ⟨List.mem_map_of_mem _ hf.1, hf.2⟩
  · rintro ⟨hm, hl⟩
    obtain ⟨e, he, rfl⟩ := List.mem_map.mp hm
    exact List.mem_map_of_mem _ (List.mem_filter.mpr ⟨he, hl⟩)

theorem batch_spec (nz : Vec3 → Vec3) (toLin : Color → Vec4)
    (sprites : List SpriteInstance) (mb : MeshBatch)
    (materials : MaterialAssets) (a : MeshesAssets) (c : Commands)
    (hWFa : a.WF) (hWFmb : mb.WF a) (hstd : StdEntries mb a) :
    ∃ mb' a' c',
      batch_sprites nz toLin sprites mb materials a c = some (mb', a', c') ∧
      a'.WF ∧ mb'.WF a' ∧ StdEntries mb' a' ∧
      (∃ ext, mb'.meshes =
        mb.meshes.filter (fun e => (materials e.1).isSome) ++ ext) ∧
      (∀ e ∈ mb'.meshes, (materials e.1).isSome) ∧
      (∀ mat, mat ∈ matsOf mb' ↔ ((mat ∈ matsOf mb ∧ (materials mat).isSome) ∨
        ∃ s ∈ sprites, s.visible = true ∧ s.material = mat ∧
          ∃ m ms, materials mat = some m ∧ m.size = some ms)) ∧
      (∀ e ∈ mb'.meshes, a'.get e.2.2 =
        some (toMesh (rebuildData nz toLin materials e.1 sprites))) := by
  have hpr : mb.remove_unloaded_meshes materials c =
      (⟨mb.meshes.filter (fun e => (materials e.1).isSome)⟩,
       ⟨c.next_entity, c.spawned, c.despawned ++
         (mb.meshes.filter (fun e => (materials e.1).isNone)).map
           (fun e => e.2.1)⟩) := by
    unfold MeshBatch.remove_unloaded_meshes
    rw [retainGo_spec]
  have hsub₁ : (mb.meshes.filter (fun e => (materials e.1).isSome)).Sublist
      mb.meshes := List.filter_sublist mb.meshes
  have hWFmb₁ : MeshBatch.WF
      ⟨mb.meshes.filter (fun e => (materials e.1).isSome)⟩ a := by
    refine ⟨hWFmb.1.sublist (hsub₁.map _), hWFmb.2.1.sublist (hsub₁.map _), ?_⟩
    intro e he
    exact hWFmb.2.2 e (hsub₁.mem he)
  obtain ⟨a₂, hclear, hWFa₂, hnext₂, hcl, _⟩ :=
    clearMeshesGo_spec (mb.meshes.filter (fun e => (materials e.1).isSome)) a
      hWFa hWFmb₁.2.1
      (fun e he => hstd e (hsub₁.mem he))
  have hWFmb₂ : MeshBatch.WF
      ⟨mb.meshes.filter (fun e => (materials e.1).isSome)⟩ a₂ := by
    refine ⟨hWFmb₁.1, hWFmb₁.2.1, ?_⟩
    intro e he
    rw [hnext₂]
    exact hWFmb₁.2.2 e he
  obtain ⟨mb', a', c', hrun', hWFa', hWFmb', ⟨ext, hext⟩, horigin, hkeys,
    hcontent⟩ :=
    submitVisible_spec nz toLin materials sprites
      ⟨mb.meshes.filter (fun e => (materials e.1).isSome)⟩ a₂
      ⟨c.next_entity, c.spawned, c.despawned ++
        (mb.meshes.filter (fun e => (materials e.1).isNone)).map (fun e => e.2.1)⟩
      (fun _ => emptyData) hWFa₂ hWFmb₂ (fun e he => hcl e he)
      (fun _ _ => rfl)
  have hloaded : ∀ e ∈ mb'.meshes, (materials e.1).isSome := by
    intro e he
    rcases horigin e he with he₁ | hl
    · exact (List.mem_filter.mp he₁).2
    · exact hl
  refine ⟨mb', a', c', ?_, hWFa', hWFmb',
    fun e he => ⟨rebuildData nz toLin materials e.1 sprites, hcontent e he⟩,
    ⟨ext, hext⟩, hloaded, ?_, hcontent⟩
  · have hclear' : MeshBatch.clear_meshes
        ⟨mb.meshes.filter (fun e => (materials e.1).isSome)⟩ a = some a₂ :=
      hclear
    simp only [batch_sprites, hpr]
    rw [hclear']
    exact hrun'
  · intro mat
    rw [hkeys mat, mem_matsOf_filter]

/-- Structural invariant of a MeshBuffer built from whole quads: all four
attribute arrays have the same length, a multiple of 4, and the index array
is exactly the two-triangle pattern of the stored quads. -/
def MeshData.WFQuads (d : MeshData) : Prop :=
  d.uvs.length = d.positions.length ∧
  d.normals.length = d.positions.length ∧
  d.colors.length = d.positions.length ∧
  d.positions.length % 4 = 0 ∧
  d.indices = quadIndices (d.positions.length / 4)

theorem emptyData_wfQuads : emptyData.WFQuads :=
  ⟨rfl, rfl, rfl, rfl, rfl⟩

theorem quadIndices_length (k : ℕ) : (quadIndices k).length = 6 * k := by
  induction k with
  | zero => rfl
  | succ k ih => simp [quadIndices, ih]; omega

theorem quadIndices_lt (k : ℕ) : ∀ ix ∈ quadIndices k, ix < 4 * k := by
  induction k with
  | zero => simp [quadIndices]
  | succ k ih =>
    intro ix hix
    rcases List.mem_append.mp hix with hix | hix
    · have := ih ix hix
      omega
    · simp only [List.mem_cons, List.not_mem_nil, or_false] at hix
      rcases hix with rfl | rfl | rfl | rfl | rfl | rfl <;> omega

theorem appendQuadData_shape (nz : Vec3 → Vec3) (toLin : Color → Vec4)
    (d : MeshData) (sprite : Sprite3d) (t : GlobalTransform) (ms ss : Vec2) :
    ∃ v₁ v₂ v₃ v₄ u₁ u₂ u₃ u₄ nm cl,
      appendQuadData nz toLin d sprite t ms ss =
        ⟨d.positions ++ [v₁, v₂, v₃, v₄],
         d.uvs ++ [u₁, u₂, u₃, u₄],
         d.normals ++ [nm, nm, nm, nm],
         d.colors ++ [cl, cl, cl, cl],
         d.indices ++
           [(d.positions.length % U32_MOD + 0) % U32_MOD,
            (d.positions.length % U32_MOD + 1) % U32_MOD,
            (d.positions.length % U32_MOD + 2) % U32_MOD,
            (d.positions.length % U32_MOD + 2) % U32_MOD,
            (d.positions.length % U32_MOD + 3) % U32_MOD,
            (d.positions.length % U32_MOD + 0) % U32_MOD]⟩ :=
  ⟨_, _, _, _, _, _, _, _, _, _, rfl⟩

theorem wfQuads_append (nz : Vec3 → Vec3) (toLin : Color → Vec4)
    (d : MeshData) (sprite : Sprite3d) (t : GlobalTransform) (ms ss : Vec2)
    (hwf : d.WFQuads) (hbound : d.positions.length + 4 ≤ U32_MOD) :
    (appendQuadData nz toLin d sprite t ms ss).WFQuads ∧
    (appendQuadData nz toLin d sprite t ms ss).positions.length =
      d.positions.length + 4 := by
  obtain ⟨v₁, v₂, v₃, v₄, u₁, u₂, u₃, u₄, nm, cl, hshape⟩ :=
    appendQuadData_shape nz toLin d sprite t ms ss
  rw [hshape]
  have hU : U32_MOD = 4294967296 := rfl
  have hn : d.positions.length % U32_MOD = d.positions.length :=
    Nat.mod_eq_of_lt (by omega)
  obtain ⟨hu, hno, hc, h4, hix⟩ := hwf
  refine ⟨⟨?_, ?_, ?_, ?_, ?_⟩, ?_⟩
  · simp [hu]
  · simp [hno]
  · simp [hc]
  · simp
    omega
  · have hq : (d.positions.length + 4) / 4 = d.positions.length / 4 + 1 := by
      omega
    have h44 : 4 * (d.positions.length / 4) = d.positions.length := by
      omega
    simp only [List.length_append, List.length_cons, List.length_nil]
    have hlen : d.positions.length + (3 + 1) = d.positions.length + 4 := by omega
    rw [hlen, hq, quadIndices, hix]
    congr 1
    rw [hn]
    have e0 : (d.positions.length + 0) % U32_MOD = d.positions.length :=
      Nat.mod_eq_of_lt (by omega)
    have e1 : (d.positions.length + 1) % U32_MOD = d.positions.length + 1 :=
      Nat.mod_eq_of_lt (by omega)
    have e2 : (d.positions.length + 2) % U32_MOD = d.positions.length + 2 :=
      Nat.mod_eq_of_lt (by omega)
    have e3 : (d.positions.length + 3) % U32_MOD = d.positions.length + 3 :=
      Nat.mod_eq_of_lt (by omega)
    rw [e0, e1, e2, e3, h44]
  · simp

theorem spriteStep_cases (nz : Vec3 → Vec3) (toLin : Color → Vec4)
    (materials : MaterialAssets) (mat : MatHandle) (d : MeshData)
    (s : SpriteInstance) :
    spriteStep nz toLin materials mat d s = d ∨
    ∃ ms ss, spriteStep nz toLin materials mat d s =
      appendQuadData nz toLin d s.sprite s.transform ms ss := by
  cases hm : materials s.material with
  | none => exact Or.inl (spriteStep_unloaded nz toLin materials mat d s hm)
  | some m =>
    cases hs : m.size with
    | none => exact Or.inl (spriteStep_no_size nz toLin materials mat d s m hm hs)
    | some ms =>
      by_cases hcond : (s.visible && s.material == mat) = true
      · refine Or.inr ⟨ms, resolveSpriteSize s.sprite ms, ?_⟩
        unfold spriteStep
        rw [if_pos hcond, hm]
        show (match m.size with
          | none => d
          | some ms => appendQuadData nz toLin d s.sprite s.transform ms
              (resolveSpriteSize s.sprite ms)) =
          appendQuadData nz toLin d s.sprite s.transform ms
            (resolveSpriteSize s.sprite ms)
        rw [hs]
      · refine Or.inl ?_
        unfold spriteStep
        rw [if_neg hcond]

theorem wfQuads_foldl (nz : Vec3 → Vec3) (toLin : Color → Vec4)
    (materials : MaterialAssets) (mat : MatHandle)
    (sprites : List SpriteInstance) :
    ∀ d : MeshData, d.WFQuads →
    d.positions.length + 4 * sprites.length ≤ U32_MOD →
    (sprites.foldl (spriteStep nz toLin materials mat) d).WFQuads ∧
    (sprites.foldl (spriteStep nz toLin materials mat) d).positions.length ≤
      d.positions.length + 4 * sprites.length := by
  induction sprites with
  | nil =>
    intro d hwf _
    exact ⟨hwf, by simp⟩
  | cons s rest ih =>
    intro d hwf hb
    rw [List.foldl_cons]
    rcases spriteStep_cases nz toLin materials mat d s with hcase | ⟨ms, ss, hcase⟩
    · rw [hcase]
      obtain ⟨h1, h2⟩ := ih d hwf (by simp at hb ⊢; omega)
      refine ⟨h1, by simp at h2 ⊢; omega⟩
    · rw [hcase]
      obtain ⟨hwf', hlen'⟩ := wfQuads_append nz toLin d s.sprite s.transform ms ss
        hwf (by simp at hb; omega)
      obtain ⟨h1, h2⟩ := ih _ hwf' (by rw [hlen']; simp at hb ⊢; omega)
      refine ⟨h1, ?_⟩
      rw [hlen'] at h2
      simp at h2 ⊢
      omega

/-- Input of one frame of the per-frame pipeline: the queried sprite rows and
the material store of that frame. -/
structure FrameInput where
  sprites : List SpriteInstance
  materials : MaterialAssets

/-- Iterated frame cycles: runs `batch_sprites` once per frame input. -/
def runFrames (nz : Vec3 → Vec3) (toLin : Color → Vec4) :
    List FrameInput → MeshBatch × MeshesAssets × Commands →
    Option (MeshBatch × MeshesAssets × Commands)
  | [], st => some st
  | fr :: rest, st =>
    match batch_sprites nz toLin fr.sprites st.1 fr.materials st.2.1 st.2.2 with
    | none => none
    | some st2 => runFrames nz toLin rest st2

theorem runFrames_spec (nz : Vec3 → Vec3) (toLin : Color → Vec4)
    (frames : List FrameInput) :
    ∀ st : MeshBatch × MeshesAssets × Commands,
    st.2.1.WF → st.1.WF st.2.1 → StdEntries st.1 st.2.1 →
    ∃ st', runFrames nz toLin frames st = some st' ∧
      st'.2.1.WF ∧ st'.1.WF st'.2.1 ∧ StdEntries st'.1 st'.2.1 ∧
      (∀ e ∈ st.1.meshes, (∀ fr ∈ frames, (fr.materials e.1).isSome) →
        e ∈ st'.1.meshes) := by
  induction frames with
  | nil =>
    intro st h1 h2 h3
    exact ⟨st, rfl, h1, h2, h3, fun e he _ => he⟩
  | cons fr rest ih =>
    intro st h1 h2 h3
    obtain ⟨mb', a', c', hrun, hWFa', hWFmb', hstd', ⟨ext, hext⟩, _, _, _⟩ :=
      batch_spec nz toLin fr.sprites st.1 fr.materials st.2.1 st.2.2 h1 h2 h3
    obtain ⟨st', hrun', hW1, hW2, hW3, hstab⟩ := ih (mb', a', c') hWFa' hWFmb' hstd'
    refine ⟨st', ?_, hW1, hW2, hW3, ?_⟩
    · simp only [runFrames, hrun]
      exact hrun'
    · intro e he hfr
      apply hstab e ?_ (fun f hf => hfr f (List.mem_cons_of_mem _ hf))
      show e ∈ mb'.meshes
      rw [hext]
      exact List.mem_append.mpr (Or.inl (List.mem_filter.mpr
        ⟨he, hfr fr (List.mem_cons_self _ _)⟩))

/-- Partial inverse of `toMesh`: reads the four standard attribute arrays and
the `U32` index array out of a mesh (empty lists where absent). -/
def meshToData (m : Mesh) : MeshData :=
  { positions :=
      match m.attribute ATTRIBUTE_POSITION with
      | some (VertexAttributeValues.Float32x3 v) => v
      | _ => [],
    uvs :=
      match m.attribute ATTRIBUTE_UV_0 with
      | some (VertexAttributeValues.Float32x2 v) => v
      | _ => [],
    normals :=
      match m.attribute ATTRIBUTE_NORMAL with
      | some (VertexAttributeValues.Float32x3 v) => v
      | _ => [],
    colors :=
      match m.attribute ATTRIBUTE_COLOR with
      | some (VertexAttributeValues.Float32x4 v) => v
      | _ => [],
    indices :=
      match m.indices with
      | some (Indices.U32 v) => v
      | _ => [] }

theorem meshToData_toMesh (d : MeshData) : meshToData (toMesh d) = d := rfl

/-- MeshBuffer contents of the registry entry of material `mat`, read from
the mesh store (`emptyData` when there is no such entry). -/
def entryData (mb : MeshBatch) (a : MeshesAssets) (mat : MatHandle) : MeshData :=
  match mb.meshes.find? (fun e => e.1 == mat) with
  | none => emptyData
  | some e =>
    match a.get e.2.2 with
    | none => emptyData
    | some mesh => meshToData mesh

theorem entryData_spec (mb : MeshBatch) (a : MeshesAssets)
    (hnd : (matsOf mb).Nodup) (hstd : StdEntries mb a) :
    (∀ e ∈ mb.meshes, a.get e.2.2 = some (toMesh (entryData mb a e.1))) ∧
    (∀ mat, mat ∉ matsOf mb → entryData mb a mat = emptyData) := by
  constructor
  · intro e he
    obtain ⟨d, hd⟩ := hstd e he
    have hsome : (mb.meshes.find? (fun x => x.1 == e.1)).isSome := by
      rw [List.find?_isSome]
      exact ⟨e, he, by simp⟩
    cases hfind : mb.meshes.find? (fun x => x.1 == e.1) with
    | none => rw [hfind] at hsome; cases hsome
    | some e' =>
      have he' : e' ∈ mb.meshes := List.mem_of_find?_eq_some hfind
      have hk : e'.1 = e.1 := by
        have := List.find?_some hfind
        simpa using this
      have hee : e' = e := List.inj_on_of_nodup_map hnd he' he hk
      subst hee
      unfold entryData
      rw [hfind]
      simp only [hd, meshToData_toMesh]
  · intro mat hmat
    have hfind : mb.meshes.find? (fun x => x.1 == mat) = none := by
      rw [List.find?_eq_none]
      intro e he
      simp only [beq_iff_eq]
      intro hc
      exact hmat (hc ▸ List.mem_map_of_mem (fun e => e.1) he)
    unfold entryData
    rw [hfind]

theorem mesh_attribute_set_ne (m : Mesh) (i j : ℕ) (v : VertexAttributeValues)
    (hne : i ≠ j) : (m.setAttribute j v).attribute i = m.attribute i := by
  unfold Mesh.attribute Mesh.setAttribute
  rw [find?_map_keyed (fun p => if p.1 == j then (p.1, v) else p)
    (by intro p; by_cases hp : (p.1 == j) = true <;> simp [hp])]
  cases hfind : m.attributes.find? (fun p => p.1 == i) with
  | none => simp [hfind]
  | some p₀ =>
    have hkey := List.find?_some hfind
    simp only [beq_iff_eq] at hkey
    have : (p₀.1 == j) = false := by
      simp [hkey]
      exact hne
    simp [hfind, this, hkey, hne]

theorem mesh_indices_set (m : Mesh) (j : ℕ) (v : VertexAttributeValues) :
    (m.setAttribute j v).indices = m.indices := rfl

/-- The contract checked piecewise by `submit_sprite`: the mesh carries
`Float32x3` positions, `Float32x2` UVs, `Float32x3` normals, `Float32x4`
colors and `U32` indices. -/
def hasRequiredArrays (m : Mesh) : Prop :=
  (∃ v, m.attribute ATTRIBUTE_POSITION = some (VertexAttributeValues.Float32x3 v)) ∧
  (∃ v, m.attribute ATTRIBUTE_UV_0 = some (VertexAttributeValues.Float32x2 v)) ∧
  (∃ v, m.attribute ATTRIBUTE_NORMAL = some (VertexAttributeValues.Float32x3 v)) ∧
  (∃ v, m.attribute ATTRIBUTE_COLOR = some (VertexAttributeValues.Float32x4 v)) ∧
  (∃ v, m.indices = some (Indices.U32 v))

/-- Spec-side definition of the quad corners, following §4.3 of the spec
word for word: half-size `H = S / 2`, center offset `O = -A * S` in the XY
plane, corners counter-clockwise from bottom-left, mapped by the pose. -/
def specQuadCorners (S A : Vec2) (t : Affine3A) : List Vec3 :=
  [t.transform_point3a (Vec3.add ⟨-(S.x / 2), -(S.y / 2), 0⟩
     ⟨-(A.x * S.x), -(A.y * S.y), 0⟩),
   t.transform_point3a (Vec3.add ⟨S.x / 2, -(S.y / 2), 0⟩
     ⟨-(A.x * S.x), -(A.y * S.y), 0⟩),
   t.transform_point3a (Vec3.add ⟨S.x / 2, S.y / 2, 0⟩
     ⟨-(A.x * S.x), -(A.y * S.y), 0⟩),
   t.transform_point3a (Vec3.add ⟨-(S.x / 2), S.y / 2, 0⟩
     ⟨-(A.x * S.x), -(A.y * S.y), 0⟩)]

/-- Spec-side definition of the quad UVs, following §4.3 step 5 of the spec:
without a rect the default corners BL=(0,1), BR=(1,1), TR=(1,0), TL=(0,0);
with a rect, the rect's pixel bounds scaled by the reciprocal of the native
size (BL takes min-x/max-y and so on); afterwards `flip_x` swaps the U
components of the left/right pairs and `flip_y` the V components of the
top/bottom pairs.  Listed in buffer order BL, BR, TR, TL. -/
def specQuadUVs (rect : Option Rect) (flip_x flip_y : Bool) (native : Vec2) :
    List Vec2 :=
  let base : Vec2 × Vec2 × Vec2 × Vec2 :=
    match rect with
    | some r =>
        (⟨r.min.x * (1 / native.x), r.max.y * (1 / native.y)⟩,
         ⟨r.max.x * (1 / native.x), r.max.y * (1 / native.y)⟩,
         ⟨r.max.x * (1 / native.x), r.min.y * (1 / native.y)⟩,
         ⟨r.min.x * (1 / native.x), r.min.y * (1 / native.y)⟩)
    | none => (⟨0, 1⟩, ⟨1, 1⟩, ⟨1, 0⟩, ⟨0, 0⟩)
  let fx : Vec2 × Vec2 × Vec2 × Vec2 :=
    if flip_x then
      (⟨base.2.1.x, base.1.y⟩, ⟨base.1.x, base.2.1.y⟩,
       ⟨base.2.2.2.x, base.2.2.1.y⟩, ⟨base.2.2.1.x, base.2.2.2.y⟩)
    else base
  let fy : Vec2 × Vec2 × Vec2 × Vec2 :=
    if flip_y then
      (⟨fx.1.x, fx.2.2.2.y⟩, ⟨fx.2.1.x, fx.2.2.1.y⟩,
       ⟨fx.2.2.1.x, fx.2.1.y⟩, ⟨fx.2.2.2.x, fx.1.y⟩)
    else fx
  [fy.1, fy.2.1, fy.2.2.1, fy.2.2.2]

theorem attr_uv_set_pos (m : Mesh) (v : VertexAttributeValues) :
    (m.setAttribute ATTRIBUTE_POSITION v).attribute ATTRIBUTE_UV_0 =
      m.attribute ATTRIBUTE_UV_0 :=
  mesh_attribute_set_ne _ _ _ _ (by decide)

theorem attr_norm_set_pos (m : Mesh) (v : VertexAttributeValues) :
    (m.setAttribute ATTRIBUTE_POSITION v).attribute ATTRIBUTE_NORMAL =
      m.attribute ATTRIBUTE_NORMAL :=
  mesh_attribute_set_ne _ _ _ _ (by decide)

theorem attr_norm_set_uv (m : Mesh) (v : VertexAttributeValues) :
    (m.setAttribute ATTRIBUTE_UV_0 v).attribute ATTRIBUTE_NORMAL =
      m.attribute ATTRIBUTE_NORMAL :=
  mesh_attribute_set_ne _ _ _ _ (by decide)

theorem attr_col_set_pos (m : Mesh) (v : VertexAttributeValues) :
    (m.setAttribute ATTRIBUTE_POSITION v).attribute ATTRIBUTE_COLOR =
      m.attribute ATTRIBUTE_COLOR :=
  mesh_attribute_set_ne _ _ _ _ (by decide)

theorem attr_col_set_uv (m : Mesh) (v : VertexAttributeValues) :
    (m.setAttribute ATTRIBUTE_UV_0 v).attribute ATTRIBUTE_COLOR =
      m.attribute ATTRIBUTE_COLOR :=
  mesh_attribute_set_ne _ _ _ _ (by decide)

theorem attr_col_set_norm (m : Mesh) (v : VertexAttributeValues) :
    (m.setAttribute ATTRIBUTE_NORMAL v).attribute ATTRIBUTE_COLOR =
      m.attribute ATTRIBUTE_COLOR :=
  mesh_attribute_set_ne _ _ _ _ (by decide)

/-- Identity world pose (identity rotation and scale, zero translation). -/
def identityTransform : GlobalTransform :=
  ⟨⟨⟨⟨1, 0, 0⟩, ⟨0, 1, 0⟩, ⟨0, 0, 1⟩⟩, ⟨0, 0, 0⟩⟩⟩

/-- Concrete stand-in for `Vec3A::normalize` used to evaluate the model. -/
def normId : Vec3 → Vec3 := fun v => v

/-- Concrete stand-in for `Color::to_linear().to_f32_array()` used to
evaluate the model. -/
def linId : Color → Vec4 := fun c => ⟨c.c0, c.c1, c.c2, c.c3⟩

/-- A sprite with a custom size of (10, 5) and no source rect. -/
def customSprite : Sprite3d :=
  ⟨⟨1, 1, 1, 1⟩, false, false, some ⟨10, 5⟩, none, ⟨⟨0, 0⟩⟩⟩

/-- Material store in which every material is loaded but reports no native
pixel size (as a `StandardMaterial` without a loaded base color texture). -/
def sizelessMaterials : MaterialAssets := fun _ => some ⟨none⟩

/-- Material store in which every material is loaded with native size 64x64. -/
def loadedMaterials : MaterialAssets := fun _ => some ⟨some ⟨64, 64⟩⟩

/-- The empty registry. -/
def mb0 : MeshBatch := ⟨[]⟩

/-- The empty mesh asset store. -/
def assets0 : MeshesAssets := ⟨0, []⟩

/-- The empty command log. -/
def commands0 : Commands := ⟨0, [], []⟩

/-- One visible queried sprite row using material 0. -/
def sprite0 : SpriteInstance := ⟨customSprite, identityTransform, 0, true⟩

theorem assets0_wf : assets0.WF := by
  intro p hp
  simp [assets0] at hp

theorem mb0_wf : MeshBatch.WF mb0 assets0 :=
  ⟨List.nodup_nil, List.nodup_nil, fun e he => absurd he (by simp [mb0])⟩

theorem std0 : StdEntries mb0 assets0 :=
  fun e he => absurd he (by simp [mb0])

/-- C2: for every submitted sprite with resolved size S, anchor vector A and
world pose T, the appended quad's four vertex positions are T applied to the
local corners, counter-clockwise from bottom-left:
(-S/2.x, -S/2.y, 0)+O, (S/2.x, -S/2.y, 0)+O, (S/2.x, S/2.y, 0)+O,
(-S/2.x, S/2.y, 0)+O with O = (-A*S, Z = 0); anchor (0,0) with size (64,32)
gives pre-transform corners at (±32, ±16), and anchor (0.5,-0.5) gives local
X in x7b-64,0x7d and Y in x7b0,32x7d. -/
theorem c2_quad_corners (nz : Vec3 → Vec3) (toLin : Color → Vec4) (d : MeshData)
    (sprite : Sprite3d) (t : GlobalTransform) (ms ss : Vec2) :
    (∃ d', submit_sprite nz toLin (toMesh d) sprite t ms ss = some (toMesh d') ∧
      d'.positions = d.positions ++
        specQuadCorners ss sprite.anchor.as_vec t.affine) ∧
    specQuadCorners ⟨64, 32⟩ ⟨0, 0⟩ identityTransform.affine =
      [⟨-32, -16, 0⟩, ⟨32, -16, 0⟩, ⟨32, 16, 0⟩, ⟨-32, 16, 0⟩] ∧
    specQuadCorners ⟨64, 32⟩ ⟨1 / 2, -(1 / 2)⟩ identityTransform.affine =
      [⟨-64, 0, 0⟩, ⟨0, 0, 0⟩, ⟨0, 32, 0⟩, ⟨-64, 32, 0⟩] := by
  refine ⟨⟨_, submit_sprite_toMesh nz toLin d sprite t ms ss, ?_⟩, ?_, ?_⟩
  · simp only [appendQuadData, specQuadCorners, Vec2.scale, Vec2.neg, Vec2.mul,
      mul_one_div, neg_mul]
  · simp [specQuadCorners, identityTransform, Affine3A.transform_point3a,
      Mat3A.mulVec, Vec3.scale, Vec3.add]
    norm_num
  · simp [specQuadCorners, identityTransform, Affine3A.transform_point3a,
      Mat3A.mulVec, Vec3.scale, Vec3.add]
    norm_num

/-- C3: for every submitted sprite, the appended quad's UVs are, in buffer
order BL, BR, TR, TL: without a source rect (0,1), (1,1), (1,0), (0,0); with
a source rect the rect's pixel bounds scaled by the reciprocal of the
material's native pixel size, BL taking (min.x, max.y), BR (max.x, max.y),
TR (max.x, min.y), TL (min.x, min.y); then flip_x swaps the U components of
the left/right pairs and flip_y the V components of the top/bottom pairs,
each flag acting independently after rect mapping.  The rect example
min=(10,10), max=(48,42), native (64,64) puts BL at (10/64, 42/64) and TR at
(48/64, 10/64). -/
theorem c3_quad_uvs (nz : Vec3 → Vec3) (toLin : Color → Vec4) (d : MeshData)
    (sprite : Sprite3d) (t : GlobalTransform) (ms ss : Vec2) :
    (∃ d', submit_sprite nz toLin (toMesh d) sprite t ms ss = some (toMesh d') ∧
      d'.uvs = d.uvs ++
        specQuadUVs sprite.rect sprite.flip_x sprite.flip_y ms) ∧
    specQuadUVs (some ⟨⟨10, 10⟩, ⟨48, 42⟩⟩) false false ⟨64, 64⟩ =
      [⟨10 / 64, 42 / 64⟩, ⟨48 / 64, 42 / 64⟩, ⟨48 / 64, 10 / 64⟩,
       ⟨10 / 64, 10 / 64⟩] ∧
    specQuadUVs none true false ⟨64, 64⟩ =
      [⟨1, 1⟩, ⟨0, 1⟩, ⟨0, 0⟩, ⟨1, 0⟩] ∧
    specQuadUVs none false true ⟨64, 64⟩ =
      [⟨0, 0⟩, ⟨1, 0⟩, ⟨1, 1⟩, ⟨0, 1⟩] := by
  refine ⟨⟨_, submit_sprite_toMesh nz toLin d sprite t ms ss, ?_⟩, ?_, ?_, ?_⟩
  · simp only [appendQuadData, specQuadUVs, Vec2.recip]
  · simp [specQuadUVs]
    norm_num
  · simp [specQuadUVs]
  · simp [specQuadUVs]

/-- C4: for every submitted sprite, all four appended vertices carry the
same normal, the normalized cross product of (BR_world - BL_world) and
(TL_world - BL_world), and all four carry the same color, the descriptor's
tint converted to linear color space. -/
theorem c4_flat_normal_color (nz : Vec3 → Vec3) (toLin : Color → Vec4)
    (d : MeshData) (sprite : Sprite3d) (t : GlobalTransform) (ms ss : Vec2) :
    ∃ d' bl br tr tl,
      submit_sprite nz toLin (toMesh d) sprite t ms ss = some (toMesh d') ∧
      d'.positions = d.positions ++ [bl, br, tr, tl] ∧
      d'.normals = d.normals ++
        List.replicate 4 (nz (Vec3.cross (Vec3.sub br bl) (Vec3.sub tl bl))) ∧
      d'.colors = d.colors ++ List.replicate 4 (toLin sprite.color) := by
  refine ⟨_, _, _, _, _, submit_sprite_toMesh nz toLin d sprite t ms ss,
    rfl, ?_, ?_⟩
  · rfl
  · rfl

/-- C6: for every registry state and every loaded-material predicate, prune
removes exactly the entries whose material no longer resolves, appends one
despawn signal for each removed entry's mesh-owning entity (exactly once per
entry, in iteration order), and leaves every kept entry verbatim (material
key, entity id and mesh handle); the spawn log and the entity allocator are
untouched. -/
theorem c6_prune_exact (mb : MeshBatch) (materials : MaterialAssets)
    (c : Commands) :
    (mb.remove_unloaded_meshes materials c).1.meshes =
      mb.meshes.filter (fun e => (materials e.1).isSome) ∧
    (mb.remove_unloaded_meshes materials c).2.despawned =
      c.despawned ++ (mb.meshes.filter (fun e => (materials e.1).isNone)).map
        (fun e => e.2.1) ∧
    (mb.remove_unloaded_meshes materials c).2.spawned = c.spawned ∧
    (mb.remove_unloaded_meshes materials c).2.next_entity = c.next_entity := by
  unfold MeshBatch.remove_unloaded_meshes
  rw [retainGo_spec]
  exact ⟨rfl, rfl, rfl, rfl⟩

/-- C9: the geometry-append step aborts (panics, modelled as `none`) if and
only if the target mesh is missing one of the expected attribute arrays
(`Float32x3` position, `Float32x2` UV, `Float32x3` normal, `Float32x4`
color) or the `U32` index array; every mesh produced by `create_mesh`
carries all of them, so under the creation contract the abort branch is
unreachable. -/
theorem c9_panic_iff_missing_arrays (nz : Vec3 → Vec3) (toLin : Color → Vec4)
    (mesh : Mesh) (sprite : Sprite3d) (t : GlobalTransform) (ms ss : Vec2) :
    (submit_sprite nz toLin mesh sprite t ms ss = none ↔
      ¬ hasRequiredArrays mesh) ∧
    hasRequiredArrays create_mesh := by
  constructor
  · cases hp : mesh.attribute ATTRIBUTE_POSITION with
    | none => simp [submit_sprite, hasRequiredArrays, hp]
    | some v₁ =>
      cases v₁
      case Float32x3 p =>
        cases hu : mesh.attribute ATTRIBUTE_UV_0 with
        | none =>
          simp [submit_sprite, hasRequiredArrays, hp, hu, attr_uv_set_pos]
        | some v₂ =>
          cases v₂
          case Float32x2 u =>
            cases hn : mesh.attribute ATTRIBUTE_NORMAL with
            | none =>
              simp [submit_sprite, hasRequiredArrays, hp, hu, hn,
                attr_uv_set_pos, attr_norm_set_pos, attr_norm_set_uv]
            | some v₃ =>
              cases v₃
              case Float32x3 n =>
                cases hc : mesh.attribute ATTRIBUTE_COLOR with
                | none =>
                  simp [submit_sprite, hasRequiredArrays, hp, hu, hn, hc,
                    attr_uv_set_pos, attr_norm_set_pos, attr_norm_set_uv,
                    attr_col_set_pos, attr_col_set_uv, attr_col_set_norm]
                | some v₄ =>
                  cases v₄
                  case Float32x4 cl =>
                    cases hx : mesh.indices with
                    | none =>
                      simp [submit_sprite, hasRequiredArrays, hp, hu, hn, hc,
                        hx, attr_uv_set_pos, attr_norm_set_pos,
                        attr_norm_set_uv, attr_col_set_pos, attr_col_set_uv,
                        attr_col_set_norm, mesh_indices_set]
                    | some ix =>
                      cases ix <;>
                        simp [submit_sprite, hasRequiredArrays, hp, hu, hn,
                          hc, hx, attr_uv_set_pos, attr_norm_set_pos,
                          attr_norm_set_uv, attr_col_set_pos, attr_col_set_uv,
                          attr_col_set_norm, mesh_indices_set]
                  all_goals
                    simp [submit_sprite, hasRequiredArrays, hp, hu, hn, hc,
                      attr_uv_set_pos, attr_norm_set_pos, attr_norm_set_uv,
                      attr_col_set_pos, attr_col_set_uv, attr_col_set_norm]
              all_goals
                simp [submit_sprite, hasRequiredArrays, hp, hu, hn,
                  attr_uv_set_pos, attr_norm_set_pos, attr_norm_set_uv]
          all_goals
            simp [submit_sprite, hasRequiredArrays, hp, hu, attr_uv_set_pos]
      all_goals simp [submit_sprite, hasRequiredArrays, hp]
  · exact ⟨⟨[], rfl⟩, ⟨[], rfl⟩, ⟨[], rfl⟩, ⟨[], rfl⟩, ⟨[], rfl⟩⟩

/-- C10: a skipped submission is side-effect-free and atomic: whenever the
material asset is absent or the material reports no native size, `submit`
returns the registry, mesh store and command log completely unchanged: no
batch entry is created, no entity is spawned, and no mesh is mutated, even
for a material submitted for the first time. -/
theorem c10_skip_is_side_effect_free (nz : Vec3 → Vec3) (toLin : Color → Vec4)
    (sprite : Sprite3d) (t : GlobalTransform) (h : MatHandle) (mb : MeshBatch)
    (a : MeshesAssets) (c : Commands) (materials : MaterialAssets)
    (hskip : materials h = none ∨ ∃ m, materials h = some m ∧ m.size = none) :
    MeshBatch.submit nz toLin mb sprite t h a materials c =
      some (mb, a, c) := by
  rcases hskip with hm | ⟨m, hm, hs⟩
  · simp [MeshBatch.submit, hm]
  · simp [MeshBatch.submit, hm, hs]

/-- Witness for C10 at a concrete first-time submission: material 0 is
loaded but sizeless, and the whole state comes back unchanged. -/
theorem c10_witness :
    MeshBatch.submit normId linId mb0 customSprite identityTransform 0 assets0
      sizelessMaterials commands0 = some (mb0, assets0, commands0) :=
  c10_skip_is_side_effect_free normId linId customSprite identityTransform 0
    mb0 assets0 commands0 sizelessMaterials (Or.inr ⟨⟨none⟩, rfl, rfl⟩)

/-- Counterexample to C1 as stated: at a concrete submission whose material
is loaded (`sizelessMaterials 0 ≠ none`) but reports no native size, and
whose descriptor does supply a custom size, the submission is nonetheless
skipped (the registry, the mesh store and the command log come back
unchanged, so no geometry is appended) — although the claim allows a skip
only when the material is unloaded, or when it has no intrinsic size and the
descriptor supplies neither custom_size nor source_rect. -/
theorem c1_counterexample :
    MeshBatch.submit normId linId mb0 customSprite identityTransform 0 assets0
      sizelessMaterials commands0 = some (mb0, assets0, commands0) ∧
    sizelessMaterials 0 ≠ none ∧
    customSprite.custom_size = some ⟨10, 5⟩ := by
  refine ⟨?_, ?_, rfl⟩
  · simp [MeshBatch.submit, sizelessMaterials]
  · simp [sizelessMaterials]

/-- C1 (amended): the effective sprite size is resolved in priority order
custom_size, then source_rect's width/height, then the material's native
pixel size; the submission is skipped (state unchanged, no geometry
appended) exactly when the material is unloaded or the material reports no
native pixel size — even when custom_size or source_rect is supplied;
otherwise a quad of the resolved effective size is appended to the
material's batch entry. -/
theorem c1_size_resolution_amended (nz : Vec3 → Vec3) (toLin : Color → Vec4)
    (sprite : Sprite3d) (t : GlobalTransform) (h : MatHandle) (mb : MeshBatch)
    (a : MeshesAssets) (c : Commands) (materials : MaterialAssets) :
    (∀ cs, sprite.custom_size = some cs →
      ∀ ms, resolveSpriteSize sprite ms = cs) ∧
    (∀ r, sprite.custom_size = none → sprite.rect = some r →
      ∀ ms, resolveSpriteSize sprite ms = r.size) ∧
    (sprite.custom_size = none → sprite.rect = none →
      ∀ ms, resolveSpriteSize sprite ms = ms) ∧
    (materials h = none →
      MeshBatch.submit nz toLin mb sprite t h a materials c =
        some (mb, a, c)) ∧
    (∀ m, materials h = some m → m.size = none →
      MeshBatch.submit nz toLin mb sprite t h a materials c =
        some (mb, a, c)) ∧
    (∀ m ms, materials h = some m → m.size = some ms →
      a.WF → mb.WF a → StdEntries mb a →
      ∃ mb' a' c' e d,
        MeshBatch.submit nz toLin mb sprite t h a materials c =
          some (mb', a', c') ∧
        e ∈ mb'.meshes ∧ e.1 = h ∧
        a'.get e.2.2 = some (toMesh (appendQuadData nz toLin d sprite t ms
          (resolveSpriteSize sprite ms)))) := by
  refine ⟨?_, ?_, ?_, ?_, ?_, ?_⟩
  · intro cs hcs ms
    simp [resolveSpriteSize, hcs]
  · intro r hcs hr ms
    simp [resolveSpriteSize, hcs, hr]
  · intro hcs hr ms
    simp [resolveSpriteSize, hcs, hr]
  · intro hm
    simp [MeshBatch.submit, hm]
  · intro m hm hs
    simp [MeshBatch.submit, hm, hs]
  · intro m ms hm hs hWFa hWFmb hstd
    obtain ⟨hcontent0, hempty0⟩ := entryData_spec mb a hWFmb.1 hstd
    obtain ⟨mb', a', c', hrun, _, hWFmb', _, _, _, hkeys, hcontent⟩ :=
      submit_spec nz toLin sprite t h mb a c materials (entryData mb a)
        hWFa hWFmb hcontent0 hempty0
    have hmem : h ∈ matsOf mb' :=
      (hkeys h).mpr (Or.inr ⟨rfl, m, ms, hm, hs⟩)
    obtain ⟨e, he, hek⟩ := List.mem_map.mp hmem
    refine ⟨mb', a', c', e, entryData mb a h, hrun, he, hek, ?_⟩
    have := hcontent e he
    rw [spriteStep_hit nz toLin materials e.1 (entryData mb a e.1) _ m ms rfl
      hek.symm hm hs] at this
    rw [hek] at this
    exact this

/-- Witness for the amended C1 at a concrete input: a first-time submission
on a loaded 64x64 material appends a quad whose effective size is the
sprite's custom size. -/
theorem c1_witness :
    ∃ mb' a' c' e d,
      MeshBatch.submit normId linId mb0 customSprite identityTransform 0
        assets0 loadedMaterials commands0 = some (mb', a', c') ∧
      e ∈ mb'.meshes ∧ e.1 = 0 ∧
      a'.get e.2.2 = some (toMesh (appendQuadData normId linId d customSprite
        identityTransform ⟨64, 64⟩
        (resolveSpriteSize customSprite ⟨64, 64⟩))) :=
  (c1_size_resolution_amended normId linId customSprite identityTransform 0
    mb0 assets0 commands0 loadedMaterials).2.2.2.2.2
    ⟨some ⟨64, 64⟩⟩ ⟨64, 64⟩ rfl rfl assets0_wf mb0_wf std0

/-- C5: after a full rebuild cycle (prune, clear, submit-all) every batch
entry's position, UV, normal and color arrays have equal length, a multiple
of 4, the index array length is a multiple of 6, every index value is below
the vertex count, and the indices of quad N are exactly
(4N, 4N+1, 4N+2, 4N+2, 4N+3, 4N); moreover each successful submit appends
exactly 4 vertices at the buffer's current length i and the 6 indices
(i, i+1, i+2), (i+2, i+3, i).  Index values are `u32`, so the statement
carries the bound that the sprite set stays within the u32 index space. -/
theorem c5_buffer_invariants :
    (∀ (nz : Vec3 → Vec3) (toLin : Color → Vec4)
      (sprites : List SpriteInstance) (mb : MeshBatch)
      (materials : MaterialAssets) (a : MeshesAssets) (c : Commands),
      a.WF → mb.WF a → StdEntries mb a → 4 * sprites.length ≤ U32_MOD →
      ∃ mb' a' c',
        batch_sprites nz toLin sprites mb materials a c = some (mb', a', c') ∧
        ∀ e ∈ mb'.meshes, ∃ d, a'.get e.2.2 = some (toMesh d) ∧
          d.uvs.length = d.positions.length ∧
          d.normals.length = d.positions.length ∧
          d.colors.length = d.positions.length ∧
          d.positions.length % 4 = 0 ∧
          d.indices.length % 6 = 0 ∧
          (∀ ix ∈ d.indices, ix < d.positions.length) ∧
          d.indices = quadIndices (d.positions.length / 4)) ∧
    (∀ (nz : Vec3 → Vec3) (toLin : Color → Vec4) (d : MeshData)
      (sprite : Sprite3d) (t : GlobalTransform) (ms ss : Vec2),
      d.positions.length + 4 ≤ U32_MOD →
      ∃ d' v₁ v₂ v₃ v₄,
        submit_sprite nz toLin (toMesh d) sprite t ms ss = some (toMesh d') ∧
        d'.positions = d.positions ++ [v₁, v₂, v₃, v₄] ∧
        d'.indices = d.indices ++
          [d.positions.length, d.positions.length + 1, d.positions.length + 2,
           d.positions.length + 2, d.positions.length + 3,
           d.positions.length]) := by
  constructor
  · intro nz toLin sprites mb materials a c hWFa hWFmb hstd hbound
    obtain ⟨mb', a', c', hrun, _, _, _, _, _, _, hcontent⟩ :=
      batch_spec nz toLin sprites mb materials a c hWFa hWFmb hstd
    refine ⟨mb', a', c', hrun, ?_⟩
    intro e he
    obtain ⟨⟨h1, h2, h3, h4, h5⟩, _⟩ :=
      wfQuads_foldl nz toLin materials e.1 sprites emptyData emptyData_wfQuads
        (by simpa [emptyData] using hbound)
    have hwf : (rebuildData nz toLin materials e.1 sprites).WFQuads :=
      ⟨h1, h2, h3, h4, h5⟩
    obtain ⟨hu, hno, hc, h4', hix⟩ := hwf
    refine ⟨rebuildData nz toLin materials e.1 sprites, hcontent e he,
      hu, hno, hc, h4', ?_, ?_, hix⟩
    · rw [hix, quadIndices_length]
      exact Nat.mul_mod_right 6 _
    · intro ix hmem
      rw [hix] at hmem
      have := quadIndices_lt _ ix hmem
      omega
  · intro nz toLin d sprite t ms ss hb
    obtain ⟨v₁, v₂, v₃, v₄, u₁, u₂, u₃, u₄, nm, cl, hshape⟩ :=
      appendQuadData_shape nz toLin d sprite t ms ss
    have hU : U32_MOD = 4294967296 := rfl
    have hn : d.positions.length % U32_MOD = d.positions.length :=
      Nat.mod_eq_of_lt (by omega)
    refine ⟨_, v₁, v₂, v₃, v₄,
      submit_sprite_toMesh nz toLin d sprite t ms ss, ?_, ?_⟩
    · rw [hshape]
    · rw [hshape, hn]
      have e0 : (d.positions.length + 0) % U32_MOD = d.positions.length :=
        Nat.mod_eq_of_lt (by omega)
      have e1 : (d.positions.length + 1) % U32_MOD = d.positions.length + 1 :=
        Nat.mod_eq_of_lt (by omega)
      have e2 : (d.positions.length + 2) % U32_MOD = d.positions.length + 2 :=
        Nat.mod_eq_of_lt (by omega)
      have e3 : (d.positions.length + 3) % U32_MOD = d.positions.length + 3 :=
        Nat.mod_eq_of_lt (by omega)
      rw [e0, e1, e2, e3]

/-- Witness for C5: one visible sprite on a loaded material, rebuilt from
the empty state, and one direct append on the empty buffer. -/
theorem c5_witness :
    (∃ mb' a' c',
      batch_sprites normId linId [sprite0] mb0 loadedMaterials assets0
        commands0 = some (mb', a', c') ∧
      ∀ e ∈ mb'.meshes, ∃ d, a'.get e.2.2 = some (toMesh d) ∧
        d.uvs.length = d.positions.length ∧
        d.normals.length = d.positions.length ∧
        d.colors.length = d.positions.length ∧
        d.positions.length % 4 = 0 ∧
        d.indices.length % 6 = 0 ∧
        (∀ ix ∈ d.indices, ix < d.positions.length) ∧
        d.indices = quadIndices (d.positions.length / 4)) ∧
    (∃ d' v₁ v₂ v₃ v₄,
      submit_sprite normId linId (toMesh emptyData) customSprite
        identityTransform ⟨64, 64⟩ ⟨10, 5⟩ = some (toMesh d') ∧
      d'.positions = emptyData.positions ++ [v₁, v₂, v₃, v₄] ∧
      d'.indices = emptyData.indices ++
        [emptyData.positions.length, emptyData.positions.length + 1,
         emptyData.positions.length + 2, emptyData.positions.length + 2,
         emptyData.positions.length + 3, emptyData.positions.length]) :=
  ⟨c5_buffer_invariants.1 normId linId [sprite0] mb0 loadedMaterials assets0
    commands0 assets0_wf mb0_wf std0 (by simp [U32_MOD]),
   c5_buffer_invariants.2 normId linId emptyData customSprite
    identityTransform ⟨64, 64⟩ ⟨10, 5⟩ (by simp [U32_MOD, emptyData])⟩

/-- C7: clearing resets every remaining batch entry's MeshBuffer to the
empty buffer (zero-length attribute and index arrays) without touching the
registry entries themselves; and across every sequence of frame cycles the
registry keeps at most one entry per material handle, while an entry whose
material stays loaded through all those frames survives verbatim — same
material key, same owning entity and same mesh handle, never recreated. -/
theorem c7_clear_and_entry_stability :
    (∀ (mb : MeshBatch) (a : MeshesAssets), a.WF →
      (mb.meshes.map (fun e => e.2.2)).Nodup →
      (∀ e ∈ mb.meshes, ∃ d, a.get e.2.2 = some (toMesh d)) →
      ∃ a', mb.clear_meshes a = some a' ∧
        ∀ e ∈ mb.meshes, a'.get e.2.2 = some (toMesh emptyData)) ∧
    (∀ (nz : Vec3 → Vec3) (toLin : Color → Vec4) (frames : List FrameInput)
      (st : MeshBatch × MeshesAssets × Commands),
      st.2.1.WF → st.1.WF st.2.1 → StdEntries st.1 st.2.1 →
      ∃ st', runFrames nz toLin frames st = some st' ∧
        (matsOf st'.1).Nodup ∧
        (∀ e ∈ st.1.meshes, (∀ fr ∈ frames, (fr.materials e.1).isSome) →
          e ∈ st'.1.meshes)) := by
  constructor
  · intro mb a hWFa hnd hstd
    obtain ⟨a', ha', _, _, hcl, _⟩ := clearMeshesGo_spec mb.meshes a hWFa hnd hstd
    exact ⟨a', ha', hcl⟩
  · intro nz toLin frames st h1 h2 h3
    obtain ⟨st', hrun, _, hW2, _, hstab⟩ :=
      runFrames_spec nz toLin frames st h1 h2 h3
    exact ⟨st', hrun, hW2.1, hstab⟩

/-- Witness for C7: clearing the empty registry and running one frame with
one sprite from the empty state. -/
theorem c7_witness :
    (∃ a', MeshBatch.clear_meshes mb0 assets0 = some a' ∧
      ∀ e ∈ mb0.meshes, a'.get e.2.2 = some (toMesh emptyData)) ∧
    (∃ st', runFrames normId linId [⟨[sprite0], loadedMaterials⟩]
        (mb0, assets0, commands0) = some st' ∧
      (matsOf st'.1).Nodup ∧
      (∀ e ∈ mb0.meshes,
        (∀ fr ∈ [(⟨[sprite0], loadedMaterials⟩ : FrameInput)],
          (fr.materials e.1).isSome) → e ∈ st'.1.meshes)) :=
  ⟨c7_clear_and_entry_stability.1 mb0 assets0 assets0_wf List.nodup_nil std0,
   c7_clear_and_entry_stability.2 normId linId [⟨[sprite0], loadedMaterials⟩]
     (mb0, assets0, commands0) assets0_wf mb0_wf std0⟩

/-- C8: the rebuild cycle is deterministic: running two consecutive rebuild
cycles on an unchanged sprite set (same descriptors, poses, materials,
visibility flags and iteration order) yields the same registry entries and
identical MeshBuffers for every entry. -/
theorem c8_rebuild_deterministic (nz : Vec3 → Vec3) (toLin : Color → Vec4)
    (sprites : List SpriteInstance) (materials : MaterialAssets)
    (mb : MeshBatch) (a : MeshesAssets) (c : Commands)
    (hWFa : a.WF) (hWFmb : mb.WF a) (hstd : StdEntries mb a) :
    ∃ st₁ st₂ : MeshBatch × MeshesAssets × Commands,
      batch_sprites nz toLin sprites mb materials a c = some st₁ ∧
      batch_sprites nz toLin sprites st₁.1 materials st₁.2.1 st₁.2.2 =
        some st₂ ∧
      st₂.1 = st₁.1 ∧
      (∀ e ∈ st₁.1.meshes, st₂.2.1.get e.2.2 = st₁.2.1.get e.2.2) := by
  obtain ⟨mb₁, a₁, c₁, hrun₁, hWFa₁, hWFmb₁, hstd₁, _, hloaded₁, hkeys₁,
    hcontent₁⟩ :=
    batch_spec nz toLin sprites mb materials a c hWFa hWFmb hstd
  obtain ⟨mb₂, a₂, c₂, hrun₂, _, hWFmb₂, _, ⟨ext₂, hext₂⟩, _, hkeys₂,
    hcontent₂⟩ :=
    batch_spec nz toLin sprites mb₁ materials a₁ c₁ hWFa₁ hWFmb₁ hstd₁
  have hfilter : mb₁.meshes.filter (fun e => (materials e.1).isSome) =
      mb₁.meshes :=
    List.filter_eq_self.mpr hloaded₁
  rw [hfilter] at hext₂
  have hextnil : ext₂ = [] := by
    cases ext₂ with
    | nil => rfl
    | cons x l =>
      exfalso
      have hx2 : x ∈ mb₂.meshes := by
        rw [hext₂]
        exact List.mem_append.mpr (Or.inr (List.mem_cons_self x l))
      have hmat2 : x.1 ∈ matsOf mb₂ := List.mem_map_of_mem _ hx2
      have hmat1 : x.1 ∈ matsOf mb₁ := by
        rcases (hkeys₂ x.1).mp hmat2 with ⟨hmem, _⟩ | hsc
        · exact hmem
        · exact (hkeys₁ x.1).mpr (Or.inr hsc)
      have hnd := hWFmb₂.1
      unfold matsOf at hnd hmat1
      rw [hext₂, List.map_append] at hnd
      exact (List.nodup_append.mp hnd).2.2 hmat1
        (List.mem_map_of_mem _ (List.mem_cons_self x l))
  rw [hextnil, List.append_nil] at hext₂
  have hmb : mb₂ = mb₁ := by
    cases mb₂
    cases mb₁
    simpa using hext₂
  refine ⟨(mb₁, a₁, c₁), (mb₂, a₂, c₂), hrun₁, hrun₂, hmb, ?_⟩
  intro e he
  have h2 := hcontent₂ e (by rw [hmb]; exact he)
  have h1 := hcontent₁ e he
  rw [h2, h1]

/-- Witness for C8: two consecutive rebuilds of one sprite from the empty
state. -/
theorem c8_witness :
    ∃ st₁ st₂ : MeshBatch × MeshesAssets × Commands,
      batch_sprites normId linId [sprite0] mb0 loadedMaterials assets0
        commands0 = some st₁ ∧
      batch_sprites normId linId [sprite0] st₁.1 loadedMaterials st₁.2.1
        st₁.2.2 = some st₂ ∧
      st₂.1 = st₁.1 ∧
      (∀ e ∈ st₁.1.meshes, st₂.2.1.get e.2.2 = st₁.2.1.get e.2.2) :=
  c8_rebuild_deterministic normId linId [sprite0] loadedMaterials mb0 assets0
    commands0 assets0_wf mb0_wf std0

end Sprite3dModel
